import Mathlib

/-!
Shallow embedding of the two stateful event counters of the
RF-DETR excavator/truck detection repository:

* `PenghitungPassing` (PassingCounter), from `src/backend/penghitung_passing.py`
* `PenghitungRitase`  (RitaseCounter), from `src/backend/penghitung_ritase.py`

Python dicts become association lists (`List (Nat × α)`), sets become
lists of strings, floats become rationals (only order comparisons are
performed on confidences, so this is exact), and Python `int` becomes
`Int`.  Each mutating method becomes a pure function from state to state
(paired with the returned boolean where the source returns one).
-/

/-- Class id of a full truck detection (`CLASS_TRUCK_FULL = 6`). -/
def CLASS_TRUCK_FULL : Nat := 6

/-- Class id of a bucket-dumping detection (`CLASS_BUCKET_DUMPING = 2`). -/
def CLASS_BUCKET_DUMPING : Nat := 2

/-- First-match lookup in an association list, mirroring Python dict access. -/
def lookupA {α : Type} : List (Nat × α) → Nat → Option α
  | [], _ => none
  | (k, v) :: rest, k2 => if k = k2 then some v else lookupA rest k2

/-- Update every entry with the given key in place, mirroring in-place
mutation of a Python dict value (keys are kept unique by construction). -/
def updateA {α : Type} (l : List (Nat × α)) (k : Nat) (f : α → α) : List (Nat × α) :=
  l.map (fun p => if p.1 = k then (p.1, f p.2) else p)

/-- Append a value to the list held at a key of a `defaultdict(list)`:
creates an empty list first when the key is absent. -/
def appendCycle {β : Type} (l : List (Nat × List β)) (k : Nat) (v : β) : List (Nat × List β) :=
  if (lookupA l k).isSome then updateA l k (fun xs => xs ++ [v])
  else l ++ [(k, [v])]

/-- Deduplication identity of a detection: the Python f-string
`f"{tracker_id}_{frame_index}"`. -/
def dedupKey (tracker_id frame_index : Nat) : String :=
  toString tracker_id ++ "_" ++ toString frame_index

/-! ## PenghitungPassing (PassingCounter) -/

/-- Best dump detection of the running cycle (`BestDump`). -/
structure BestDump where
  dump_id : String
  frame_index : Nat
  confidence : ℚ
deriving DecidableEq

/-- Dump detection payload stored in the active cycle (`DumpDeteksi`). -/
structure DumpDeteksi where
  dump_id : String
  frame_index : Nat
  confidence : ℚ
deriving DecidableEq

/-- Per-excavator statistics (`ExcavatorData`). -/
structure ExcavatorData where
  passing_count : Int
  best_dump : Option BestDump
deriving DecidableEq

/-- State of the passing counter (`PenghitungPassing.__init__`). -/
structure PenghitungPassing where
  excavators : List (Nat × ExcavatorData)
  counted_dumps : List String
  min_confidence : ℚ
  total_passing : Int
  active_cycle : List (Nat × List DumpDeteksi)
deriving DecidableEq

/-- Fresh passing counter with the given confidence threshold. -/
def PenghitungPassing.init (min_confidence : ℚ) : PenghitungPassing :=
  { excavators := [], counted_dumps := [], min_confidence := min_confidence,
    total_passing := 0, active_cycle := [] }

/-- Lazily created entry for a new excavator (`_inisialisasi_excavator`). -/
def initExcavator : ExcavatorData := { passing_count := 0, best_dump := none }

/-- Lazy creation of entity state for an unseen tracker id
(`if tracker_id not in self.excavators: self._inisialisasi_excavator(...)`). -/
def PenghitungPassing.pastikanExcavator (s0 : PenghitungPassing) (tracker_id : Nat) :
    PenghitungPassing :=
  { s0 with excavators :=
      if (lookupA s0.excavators tracker_id).isSome then s0.excavators
      else s0.excavators ++ [(tracker_id, initExcavator)] }

/-- Process one detection (`PenghitungPassing.proses_deteksi`); returns the
new state together with the `is_new_passing` boolean. -/
def PenghitungPassing.proses_deteksi (s0 : PenghitungPassing)
    (tracker_id class_id frame_index : Nat) (confidence : ℚ) :
    PenghitungPassing × Bool :=
  let s := s0.pastikanExcavator tracker_id
  if class_id = CLASS_BUCKET_DUMPING then
    let dump_id := dedupKey tracker_id frame_index
    if dump_id ∈ s.counted_dumps ∨ confidence < s.min_confidence then (s, false)
    else
      let det : DumpDeteksi :=
        { dump_id := dump_id, frame_index := frame_index, confidence := confidence }
      let s := { s with active_cycle := appendCycle s.active_cycle tracker_id det }
      let excavator := (lookupA s.excavators tracker_id).getD initExcavator
      match excavator.best_dump with
      | none =>
          let s := { s with
            excavators := updateA s.excavators tracker_id (fun e =>
              { e with
                best_dump := some { dump_id := dump_id, frame_index := frame_index,
                                    confidence := confidence },
                passing_count := e.passing_count + 1 }),
            total_passing := s.total_passing + 1 }
          ({ s with counted_dumps := s.counted_dumps ++ [dump_id] }, true)
      | some old_best =>
          if confidence > old_best.confidence then
            let s := { s with
              excavators := updateA s.excavators tracker_id (fun e =>
                { e with best_dump := some { dump_id := dump_id, frame_index := frame_index,
                                             confidence := confidence } }) }
            ({ s with counted_dumps := s.counted_dumps ++ [dump_id] }, false)
          else
            ({ s with counted_dumps := s.counted_dumps ++ [dump_id] }, false)
  else (s, false)

/-- End an excavator's active cycle (`PenghitungPassing.selesaikan_siklus`). -/
def PenghitungPassing.selesaikan_siklus (s : PenghitungPassing) (tracker_id : Nat) :
    PenghitungPassing :=
  if (lookupA s.active_cycle tracker_id).isSome then
    { s with
      active_cycle := updateA s.active_cycle tracker_id (fun _ => []),
      excavators :=
        if (lookupA s.excavators tracker_id).isSome then
          updateA s.excavators tracker_id (fun e => { e with best_dump := none })
        else s.excavators }
  else s

/-- Passing count lookup (`PenghitungPassing.dapatkan_passing_count`):
`none` returns the grand total. -/
def PenghitungPassing.dapatkan_passing_count (s : PenghitungPassing)
    (tracker_id : Option Nat) : Int :=
  match tracker_id with
  | none => s.total_passing
  | some tid => ((lookupA s.excavators tid).getD initExcavator).passing_count

/-- Full reset (`PenghitungPassing.reset_all_counters`). -/
def PenghitungPassing.reset_all_counters (s : PenghitungPassing) : PenghitungPassing :=
  { s with
    excavators := s.excavators.map (fun p =>
      (p.1, { passing_count := 0, best_dump := none })),
    total_passing := 0,
    active_cycle := [],
    counted_dumps := [] }

/-! ## PenghitungRitase (RitaseCounter) -/

/-- Best full-truck detection of the running global cycle: the dict built at
`ritase_terbaik_di_siklus` assignments, keyed by `tracker_id`. -/
structure BestSiklus where
  tracker_id : Nat
  frame_index : Nat
  confidence : ℚ
  cycle_number : Nat
deriving DecidableEq

/-- Per-truck best detection record (`best_full` inside `TruckData`),
keyed by the dedup string `full_truck_id`. -/
structure BestFull where
  full_truck_id : String
  frame_index : Nat
  confidence : ℚ
  cycle_number : Nat
deriving DecidableEq

/-- Per-truck statistics (`TruckData`). -/
structure TruckData where
  ritase_count : Int
  best_full : Option BestFull
  last_cycle_frame : Nat
  last_cycle_number : Int
deriving DecidableEq

/-- Full-truck detection payload stored in the active cycle (`FullDeteksi`). -/
structure FullDeteksi where
  full_truck_id : String
  frame_index : Nat
  confidence : ℚ
deriving DecidableEq

/-- Candidate trail entry for monitoring (`KandidatInfo`). -/
structure KandidatInfo where
  tracker_id : Nat
  frame_index : Nat
  confidence : ℚ
  status : String
deriving DecidableEq

/-- State of the ritase counter (`PenghitungRitase.__init__`). -/
structure PenghitungRitase where
  data_truk : List (Nat × TruckData)
  truk_full_terhitung : List String
  ambang_kepercayaan : ℚ
  total_ritase : Int
  siklus_aktif : List (Nat × List FullDeteksi)
  total_siklus_selesai : Int
  total_deteksi_truk_penuh : Int
  siklus_berjalan_punya_ritase : Bool
  ritase_terbaik_di_siklus : Option BestSiklus
  nomor_siklus : Nat
  total_pencegahan_ganda : Int
  kandidat_siklus : List KandidatInfo
deriving DecidableEq

/-- Fresh ritase counter with the given confidence threshold. -/
def PenghitungRitase.init (min_confidence : ℚ) : PenghitungRitase :=
  { data_truk := [], truk_full_terhitung := [], ambang_kepercayaan := min_confidence,
    total_ritase := 0, siklus_aktif := [], total_siklus_selesai := 0,
    total_deteksi_truk_penuh := 0, siklus_berjalan_punya_ritase := false,
    ritase_terbaik_di_siklus := none, nomor_siklus := 0,
    total_pencegahan_ganda := 0, kandidat_siklus := [] }

/-- Lazily created entry for a new truck (`_inisialisasi_truck`). -/
def initTruck : TruckData :=
  { ritase_count := 0, best_full := none, last_cycle_frame := 0, last_cycle_number := -1 }

/-- Close one truck's active cycle (`PenghitungRitase.selesaikan_siklus`). -/
def PenghitungRitase.selesaikan_siklus (s : PenghitungRitase) (tracker_id : Nat) :
    PenghitungRitase :=
  if (lookupA s.siklus_aktif tracker_id).isSome then
    { s with
      siklus_aktif := updateA s.siklus_aktif tracker_id (fun _ => []),
      data_truk :=
        if (lookupA s.data_truk tracker_id).isSome then
          updateA s.data_truk tracker_id (fun d =>
            { d with best_full := none, last_cycle_frame := 0,
                     last_cycle_number := (s.nomor_siklus : Int) })
        else s.data_truk }
  else s

/-- Close the global cycle on a bucket-dumping signal
(`PenghitungRitase._selesaikan_siklus_global`). -/
def PenghitungRitase.selesaikan_siklus_global (s : PenghitungRitase) : PenghitungRitase :=
  let aktif := (s.siklus_aktif.filter (fun p => 0 < p.2.length)).map Prod.fst
  let s2 := aktif.foldl (fun st tid => st.selesaikan_siklus tid) s
  if aktif ≠ [] ∨ s.siklus_berjalan_punya_ritase then
    { s2 with
      total_siklus_selesai := s2.total_siklus_selesai + 1,
      siklus_berjalan_punya_ritase := false,
      ritase_terbaik_di_siklus := none,
      kandidat_siklus := [],
      nomor_siklus := s2.nomor_siklus + 1 }
  else s2

/-- The swap/contend branch of `proses_deteksi` taken while the global
cycle already has a credited ritase (source lines 130-186). -/
def PenghitungRitase.langkahKandidat (s : PenghitungRitase)
    (tracker_id frame_index : Nat) (confidence : ℚ) : PenghitungRitase :=
  let kandidat_lebih_baik :=
    match s.ritase_terbaik_di_siklus with
    | none => true
    | some b => decide (b.confidence < confidence)
  let s1 :=
    if kandidat_lebih_baik then
      let kandidat_lama := s.ritase_terbaik_di_siklus
      let baru : BestSiklus :=
        { tracker_id := tracker_id, frame_index := frame_index,
          confidence := confidence, cycle_number := s.nomor_siklus }
      let sA := { s with ritase_terbaik_di_siklus := some baru }
      let sB :=
        match kandidat_lama with
        | some lama =>
          if (lookupA sA.data_truk lama.tracker_id).isSome then
            { sA with data_truk := updateA sA.data_truk lama.tracker_id (fun d =>
                { d with ritase_count := max 0 (d.ritase_count - 1) }) }
          else sA
        | none => sA
      let best : BestFull :=
        { full_truck_id := dedupKey tracker_id frame_index, frame_index := frame_index,
          confidence := confidence, cycle_number := s.nomor_siklus }
      { sB with data_truk := updateA sB.data_truk tracker_id (fun d =>
          { d with ritase_count := d.ritase_count + 1, best_full := some best }) }
    else s
  let info : KandidatInfo :=
    { tracker_id := tracker_id, frame_index := frame_index, confidence := confidence,
      status := if kandidat_lebih_baik then "better_candidate" else "rejected" }
  { s1 with kandidat_siklus := s1.kandidat_siklus ++ [info],
            total_pencegahan_ganda := s1.total_pencegahan_ganda + 1 }

/-- The first-credit branch of `proses_deteksi` taken while the global cycle
has no ritase yet (source lines 188-234); returns `is_new_ritase`. -/
def PenghitungRitase.langkahKredit (s : PenghitungRitase)
    (tracker_id frame_index : Nat) (confidence : ℚ) : PenghitungRitase × Bool :=
  let id_truk_full := dedupKey tracker_id frame_index
  if id_truk_full ∉ s.truk_full_terhitung ∧ s.ambang_kepercayaan ≤ confidence then
    let det : FullDeteksi :=
      { full_truck_id := id_truk_full, frame_index := frame_index, confidence := confidence }
    let s1 := { s with siklus_aktif := appendCycle s.siklus_aktif tracker_id det }
    let baru : BestSiklus :=
      { tracker_id := tracker_id, frame_index := frame_index,
        confidence := confidence, cycle_number := s1.nomor_siklus }
    let s2 := { s1 with siklus_berjalan_punya_ritase := true,
                        ritase_terbaik_di_siklus := some baru }
    let best : BestFull :=
      { full_truck_id := id_truk_full, frame_index := frame_index,
        confidence := confidence, cycle_number := s2.nomor_siklus }
    let s3 := { s2 with data_truk := updateA s2.data_truk tracker_id (fun d =>
        { d with ritase_count := d.ritase_count + 1, best_full := some best }) }
    let s4 := { s3 with total_ritase := s3.total_ritase + 1 }
    let info : KandidatInfo :=
      { tracker_id := tracker_id, frame_index := frame_index, confidence := confidence,
        status := "accepted_as_primary" }
    let s5 := { s4 with kandidat_siklus := s4.kandidat_siklus ++ [info] }
    ({ s5 with truk_full_terhitung := s5.truk_full_terhitung ++ [id_truk_full] }, true)
  else (s, false)

/-- Lazy creation of per-truck state for an unseen tracker id
(`if tracker_id not in self.data_truk: self._inisialisasi_truck(...)`). -/
def PenghitungRitase.pastikanTruck (s0 : PenghitungRitase) (tracker_id : Nat) :
    PenghitungRitase :=
  { s0 with data_truk :=
      if (lookupA s0.data_truk tracker_id).isSome then s0.data_truk
      else s0.data_truk ++ [(tracker_id, initTruck)] }

/-- Process one detection (`PenghitungRitase.proses_deteksi`); returns the
new state together with the `is_new_ritase` boolean. -/
def PenghitungRitase.proses_deteksi (s0 : PenghitungRitase)
    (tracker_id class_id frame_index : Nat) (confidence : ℚ) :
    PenghitungRitase × Bool :=
  let s := s0.pastikanTruck tracker_id
  if class_id = CLASS_TRUCK_FULL then
    let s1 := { s with total_deteksi_truk_penuh := s.total_deteksi_truk_penuh + 1 }
    if s1.siklus_berjalan_punya_ritase then
      (s1.langkahKandidat tracker_id frame_index confidence, false)
    else
      s1.langkahKredit tracker_id frame_index confidence
  else if class_id = CLASS_BUCKET_DUMPING then
    (s.selesaikan_siklus_global, false)
  else (s, false)

/-- Ritase count lookup (`PenghitungRitase.dapatkan_ritase_count`):
`none` returns the grand total. -/
def PenghitungRitase.dapatkan_ritase_count (s : PenghitungRitase)
    (tracker_id : Option Nat) : Int :=
  match tracker_id with
  | none => s.total_ritase
  | some tid => ((lookupA s.data_truk tid).getD initTruck).ritase_count

/-- Light reset used when a new hauling cycle starts
(`PenghitungRitase.reset_counters`). -/
def PenghitungRitase.reset_counters (s : PenghitungRitase) : PenghitungRitase :=
  { s with
    total_ritase := 0,
    data_truk := s.data_truk.map (fun p =>
      (p.1, { ritase_count := 0, best_full := none,
              last_cycle_frame := p.2.last_cycle_frame,
              last_cycle_number := p.2.last_cycle_number })) }

/-! ## Association-list lemmas -/

/-- Sum of an integer projection of the values of an association list. -/
def sumA {α : Type} (g : α → Int) (l : List (Nat × α)) : Int :=
  (l.map (fun p => g p.2)).sum

/-! ## Invariants and derived readings -/

/-- Per-truck ritase count as read through the map (missing truck reads 0). -/
def PenghitungRitase.hitungTruk (s : PenghitungRitase) (tid : Nat) : Int :=
  ((lookupA s.data_truk tid).getD initTruck).ritase_count

/-- Sum of all per-truck ritase counts. -/
def PenghitungRitase.jumlahRitase (s : PenghitungRitase) : Int :=
  sumA (fun d => d.ritase_count) s.data_truk

/-- The best detection of the running cycle has an owning truck entry whose
count is at least one. -/
def PenghitungRitase.milikOk (s : PenghitungRitase) : Prop :=
  ∃ b d, s.ritase_terbaik_di_siklus = some b ∧
    lookupA s.data_truk b.tracker_id = some d ∧ 1 ≤ d.ritase_count

/-- Boolean evaluator for `milikOk`. -/
def PenghitungRitase.pemilikTerbaik (s : PenghitungRitase) : Bool :=
  match s.ritase_terbaik_di_siklus with
  | none => false
  | some b =>
    match lookupA s.data_truk b.tracker_id with
    | none => false
    | some d => decide (1 ≤ d.ritase_count)

instance (s : PenghitungRitase) : Decidable s.milikOk :=
  decidable_of_iff (s.pemilikTerbaik = true) (by
    unfold PenghitungRitase.pemilikTerbaik PenghitungRitase.milikOk
    cases hb : s.ritase_terbaik_di_siklus with
    | none => simp
    | some b =>
      cases hd : lookupA s.data_truk b.tracker_id with
      | none => simp [hd]
      | some d => simp [hd])

/-- Inductive invariant of the ritase counter: truck keys are unique, counts
are non-negative, the counts sum to the running total, and a cycle that has
credited a ritase credits it to the current best detection's owner. -/
def InvRitase (s : PenghitungRitase) : Prop :=
  (s.data_truk.map Prod.fst).Nodup ∧
  (∀ p ∈ s.data_truk, 0 ≤ p.2.ritase_count) ∧
  s.jumlahRitase = s.total_ritase ∧
  (s.siklus_berjalan_punya_ritase = true → s.milikOk)

instance (s : PenghitungRitase) : Decidable (InvRitase s) := by
  unfold InvRitase; infer_instance

/-- Sum of all per-excavator passing counts. -/
def PenghitungPassing.jumlahPassing (s : PenghitungPassing) : Int :=
  sumA (fun e => e.passing_count) s.excavators

/-- Per-excavator passing count as read through the map (missing reads 0). -/
def PenghitungPassing.hitungExcavator (s : PenghitungPassing) (tid : Nat) : Int :=
  ((lookupA s.excavators tid).getD initExcavator).passing_count

/-- Best candidate of an excavator as read through the map. -/
def PenghitungPassing.kandidatTerbaik (s : PenghitungPassing) (tid : Nat) :
    Option BestDump :=
  ((lookupA s.excavators tid).getD initExcavator).best_dump

/-- Inductive invariant of the passing counter: excavator keys are unique and
the per-excavator counts sum to the running total. -/
def InvPassing (s : PenghitungPassing) : Prop :=
  (s.excavators.map Prod.fst).Nodup ∧
  s.jumlahPassing = s.total_passing

instance (s : PenghitungPassing) : Decidable (InvPassing s) := by
  unfold InvPassing; infer_instance

/-- Sequential processing of a list of `(tracker_id, class_id, frame_index,
confidence)` detections by the ritase counter. -/
def PenghitungRitase.prosesSemua (s : PenghitungRitase)
    (l : List (Nat × Nat × Nat × ℚ)) : PenghitungRitase :=
  l.foldl (fun st a => (st.proses_deteksi a.1 a.2.1 a.2.2.1 a.2.2.2).1) s


theorem lookupA_cons {α : Type} (k0 : Nat) (v0 : α) (rest : List (Nat × α)) (k : Nat) :
    lookupA ((k0, v0) :: rest) k = if k0 = k then some v0 else lookupA rest k := rfl

theorem updateA_cons {α : Type} (k0 : Nat) (v0 : α) (rest : List (Nat × α)) (k : Nat)
    (f : α → α) :
    updateA ((k0, v0) :: rest) k f =
      (if k0 = k then (k0, f v0) else (k0, v0)) :: updateA rest k f := by
  simp only [updateA, List.map_cons]

theorem sumA_cons {α : Type} (g : α → Int) (k0 : Nat) (v0 : α) (rest : List (Nat × α)) :
    sumA g ((k0, v0) :: rest) = g v0 + sumA g rest := by
  simp [sumA]

theorem lookupA_append_some {α : Type} {l1 : List (Nat × α)} {k : Nat} {v : α}
    (l2 : List (Nat × α)) (h : lookupA l1 k = some v) :
    lookupA (l1 ++ l2) k = some v := by
  induction l1 with
  | nil => simp [lookupA] at h
  | cons p rest ih =>
    obtain ⟨k0, v0⟩ := p
    by_cases hk : k0 = k
    · rw [lookupA_cons, if_pos hk] at h
      rw [List.cons_append, lookupA_cons, if_pos hk]
      exact h
    · rw [lookupA_cons, if_neg hk] at h
      rw [List.cons_append, lookupA_cons, if_neg hk]
      exact ih h

theorem lookupA_append_none {α : Type} {l1 : List (Nat × α)} {k : Nat}
    (l2 : List (Nat × α)) (h : lookupA l1 k = none) :
    lookupA (l1 ++ l2) k = lookupA l2 k := by
  induction l1 with
  | nil => simp
  | cons p rest ih =>
    obtain ⟨k0, v0⟩ := p
    by_cases hk : k0 = k
    · rw [lookupA_cons, if_pos hk] at h; cases h
    · rw [lookupA_cons, if_neg hk] at h
      rw [List.cons_append, lookupA_cons, if_neg hk]
      exact ih h

theorem lookupA_mem {α : Type} {l : List (Nat × α)} {k : Nat} {v : α}
    (h : lookupA l k = some v) : (k, v) ∈ l := by
  induction l with
  | nil => simp [lookupA] at h
  | cons p rest ih =>
    obtain ⟨k0, v0⟩ := p
    by_cases hk : k0 = k
    · subst hk
      rw [lookupA_cons, if_pos rfl] at h
      obtain rfl : v0 = v := by injection h
      exact List.mem_cons_self _ _
    · rw [lookupA_cons, if_neg hk] at h
      exact List.mem_cons_of_mem _ (ih h)

theorem lookupA_none_not_mem {α : Type} {l : List (Nat × α)} {k : Nat}
    (h : lookupA l k = none) : k ∉ l.map Prod.fst := by
  induction l with
  | nil => simp
  | cons p rest ih =>
    obtain ⟨k0, v0⟩ := p
    by_cases hk : k0 = k
    · rw [lookupA_cons, if_pos hk] at h; cases h
    · rw [lookupA_cons, if_neg hk] at h
      simp only [List.map_cons, List.mem_cons, not_or]
      exact ⟨fun h1 => hk h1.symm, ih h⟩

theorem lookupA_none_of_not_mem {α : Type} {l : List (Nat × α)} {k : Nat}
    (h : k ∉ l.map Prod.fst) : lookupA l k = none := by
  cases hr : lookupA l k with
  | none => rfl
  | some w => exact absurd (List.mem_map_of_mem Prod.fst (lookupA_mem hr)) h

theorem keys_updateA {α : Type} (l : List (Nat × α)) (k : Nat) (f : α → α) :
    (updateA l k f).map Prod.fst = l.map Prod.fst := by
  induction l with
  | nil => rfl
  | cons p rest ih =>
    obtain ⟨k0, v0⟩ := p
    rw [updateA_cons]
    by_cases hk : k0 = k
    · rw [if_pos hk]; simpa using ih
    · rw [if_neg hk]; simpa using ih

theorem lookupA_updateA_self {α : Type} (l : List (Nat × α)) (k : Nat) (f : α → α) :
    lookupA (updateA l k f) k = (lookupA l k).map f := by
  induction l with
  | nil => rfl
  | cons p rest ih =>
    obtain ⟨k0, v0⟩ := p
    rw [updateA_cons]
    by_cases hk : k0 = k
    · rw [if_pos hk, lookupA_cons, if_pos hk, lookupA_cons, if_pos hk]
      rfl
    · rw [if_neg hk, lookupA_cons, if_neg hk, lookupA_cons, if_neg hk]
      exact ih

theorem lookupA_updateA_ne {α : Type} (l : List (Nat × α)) {k k2 : Nat} (f : α → α)
    (h : k2 ≠ k) : lookupA (updateA l k f) k2 = lookupA l k2 := by
  induction l with
  | nil => rfl
  | cons p rest ih =>
    obtain ⟨k0, v0⟩ := p
    rw [updateA_cons]
    by_cases hk : k0 = k
    · have hne : ¬ k0 = k2 := fun e => h (e ▸ hk)
      rw [if_pos hk, lookupA_cons, if_neg hne, lookupA_cons, if_neg hne]
      exact ih
    · rw [if_neg hk]
      by_cases hk2 : k0 = k2
      · rw [lookupA_cons, if_pos hk2, lookupA_cons, if_pos hk2]
      · rw [lookupA_cons, if_neg hk2, lookupA_cons, if_neg hk2]
        exact ih

theorem updateA_of_none {α : Type} {l : List (Nat × α)} {k : Nat} (f : α → α)
    (h : lookupA l k = none) : updateA l k f = l := by
  induction l with
  | nil => rfl
  | cons p rest ih =>
    obtain ⟨k0, v0⟩ := p
    by_cases hk : k0 = k
    · rw [lookupA_cons, if_pos hk] at h; cases h
    · rw [lookupA_cons, if_neg hk] at h
      rw [updateA_cons, if_neg hk, ih h]

theorem sumA_append {α : Type} (g : α → Int) (l1 l2 : List (Nat × α)) :
    sumA g (l1 ++ l2) = sumA g l1 + sumA g l2 := by
  simp [sumA]

theorem sumA_updateA_congr {α : Type} {g : α → Int} {f : α → α}
    (l : List (Nat × α)) (k : Nat) (h : ∀ d, g (f d) = g d) :
    sumA g (updateA l k f) = sumA g l := by
  induction l with
  | nil => rfl
  | cons p rest ih =>
    obtain ⟨k0, v0⟩ := p
    rw [updateA_cons]
    by_cases hk : k0 = k
    · rw [if_pos hk, sumA_cons, sumA_cons, h, ih]
    · rw [if_neg hk, sumA_cons, sumA_cons, ih]

theorem sumA_updateA {α : Type} {g : α → Int} {f : α → α}
    {l : List (Nat × α)} {k : Nat} {d : α}
    (hnd : (l.map Prod.fst).Nodup) (hk : lookupA l k = some d) :
    sumA g (updateA l k f) = sumA g l - g d + g (f d) := by
  induction l with
  | nil => simp [lookupA] at hk
  | cons p rest ih =>
    obtain ⟨k0, v0⟩ := p
    simp only [List.map_cons, List.nodup_cons] at hnd
    by_cases h0 : k0 = k
    · subst h0
      rw [lookupA_cons, if_pos rfl] at hk
      obtain rfl : v0 = d := by injection hk
      have hrest : lookupA rest k0 = none := lookupA_none_of_not_mem hnd.1
      rw [updateA_cons, if_pos rfl, updateA_of_none f hrest, sumA_cons, sumA_cons]
      omega
    · rw [lookupA_cons, if_neg h0] at hk
      have := ih hnd.2 hk
      rw [updateA_cons, if_neg h0, sumA_cons, sumA_cons, this]
      omega

theorem forall_mem_updateA {α : Type} {P : α → Prop} {l : List (Nat × α)} {k : Nat}
    {f : α → α} (h : ∀ p ∈ l, P p.2) (hf : ∀ d, P d → P (f d)) :
    ∀ p ∈ updateA l k f, P p.2 := by
  induction l with
  | nil => simp [updateA]
  | cons q rest ih =>
    obtain ⟨k0, v0⟩ := q
    rw [updateA_cons]
    intro p hp
    rcases List.mem_cons.mp hp with hp1 | hp2
    · subst hp1
      by_cases hk : k0 = k
      · rw [if_pos hk]
        exact hf v0 (h (k0, v0) (List.mem_cons_self _ _))
      · rw [if_neg hk]
        exact h (k0, v0) (List.mem_cons_self _ _)
    · exact ih (fun q hq => h q (List.mem_cons_of_mem _ hq)) p hp2

/-! ## Shape lemmas for the ritase step functions -/

theorem langkahKandidat_swap (s : PenghitungRitase) (tid fi : Nat) (conf : ℚ)
    (b : BestSiklus) (d : TruckData)
    (hbest : s.ritase_terbaik_di_siklus = some b)
    (hconf : b.confidence < conf)
    (hd : lookupA s.data_truk b.tracker_id = some d) :
    s.langkahKandidat tid fi conf =
      { s with
        ritase_terbaik_di_siklus := some
          { tracker_id := tid, frame_index := fi, confidence := conf,
            cycle_number := s.nomor_siklus },
        data_truk := updateA
          (updateA s.data_truk b.tracker_id (fun d =>
            { d with ritase_count := max 0 (d.ritase_count - 1) })) tid (fun d =>
            { d with ritase_count := d.ritase_count + 1,
                     best_full := some { full_truck_id := dedupKey tid fi,
                                         frame_index := fi, confidence := conf,
                                         cycle_number := s.nomor_siklus } }),
        kandidat_siklus := s.kandidat_siklus ++
          [{ tracker_id := tid, frame_index := fi, confidence := conf,
             status := "better_candidate" }],
        total_pencegahan_ganda := s.total_pencegahan_ganda + 1 } := by
  unfold PenghitungRitase.langkahKandidat
  rw [hbest]
  simp [hconf, hd]

theorem langkahKandidat_reject (s : PenghitungRitase) (tid fi : Nat) (conf : ℚ)
    (b : BestSiklus)
    (hbest : s.ritase_terbaik_di_siklus = some b)
    (hconf : ¬ b.confidence < conf) :
    s.langkahKandidat tid fi conf =
      { s with
        kandidat_siklus := s.kandidat_siklus ++
          [{ tracker_id := tid, frame_index := fi, confidence := conf,
             status := "rejected" }],
        total_pencegahan_ganda := s.total_pencegahan_ganda + 1 } := by
  unfold PenghitungRitase.langkahKandidat
  rw [hbest]
  simp [hconf]
  exact hbest

theorem langkahKredit_accept (s : PenghitungRitase) (tid fi : Nat) (conf : ℚ)
    (hnew : dedupKey tid fi ∉ s.truk_full_terhitung)
    (hc : s.ambang_kepercayaan ≤ conf) :
    s.langkahKredit tid fi conf =
      ({ s with
         siklus_aktif := appendCycle s.siklus_aktif tid
           { full_truck_id := dedupKey tid fi, frame_index := fi, confidence := conf },
         siklus_berjalan_punya_ritase := true,
         ritase_terbaik_di_siklus := some
           { tracker_id := tid, frame_index := fi, confidence := conf,
             cycle_number := s.nomor_siklus },
         data_truk := updateA s.data_truk tid (fun d =>
           { d with ritase_count := d.ritase_count + 1,
                    best_full := some { full_truck_id := dedupKey tid fi,
                                        frame_index := fi, confidence := conf,
                                        cycle_number := s.nomor_siklus } }),
         total_ritase := s.total_ritase + 1,
         kandidat_siklus := s.kandidat_siklus ++
           [{ tracker_id := tid, frame_index := fi, confidence := conf,
              status := "accepted_as_primary" }],
         truk_full_terhitung := s.truk_full_terhitung ++ [dedupKey tid fi] }, true) := by
  unfold PenghitungRitase.langkahKredit
  rw [if_pos ⟨hnew, hc⟩]

theorem langkahKredit_reject (s : PenghitungRitase) (tid fi : Nat) (conf : ℚ)
    (h : ¬ (dedupKey tid fi ∉ s.truk_full_terhitung ∧ s.ambang_kepercayaan ≤ conf)) :
    s.langkahKredit tid fi conf = (s, false) := by
  unfold PenghitungRitase.langkahKredit
  rw [if_neg h]

theorem langkahKandidat_sama (s : PenghitungRitase) (tid fi : Nat) (conf : ℚ) :
    (s.langkahKandidat tid fi conf).total_ritase = s.total_ritase ∧
    (s.langkahKandidat tid fi conf).siklus_berjalan_punya_ritase
      = s.siklus_berjalan_punya_ritase ∧
    (s.langkahKandidat tid fi conf).truk_full_terhitung = s.truk_full_terhitung ∧
    (s.langkahKandidat tid fi conf).ambang_kepercayaan = s.ambang_kepercayaan ∧
    (s.langkahKandidat tid fi conf).nomor_siklus = s.nomor_siklus ∧
    (s.langkahKandidat tid fi conf).total_siklus_selesai = s.total_siklus_selesai := by
  unfold PenghitungRitase.langkahKandidat
  cases hb : s.ritase_terbaik_di_siklus with
  | none => simp
  | some b =>
    by_cases hc : b.confidence < conf
    · simp [hc]
      split <;> simp
    · simp [hc]

theorem invRitase_congr {s s' : PenghitungRitase}
    (h1 : s'.data_truk = s.data_truk) (h2 : s'.total_ritase = s.total_ritase)
    (h3 : s'.siklus_berjalan_punya_ritase = s.siklus_berjalan_punya_ritase)
    (h4 : s'.ritase_terbaik_di_siklus = s.ritase_terbaik_di_siklus)
    (hInv : InvRitase s) : InvRitase s' := by
  unfold InvRitase PenghitungRitase.jumlahRitase PenghitungRitase.milikOk at hInv ⊢
  rw [h1, h2, h3, h4]
  exact hInv

theorem pastikanTruck_lookup (s : PenghitungRitase) (tid : Nat) :
    ∃ d, lookupA (s.pastikanTruck tid).data_truk tid = some d := by
  unfold PenghitungRitase.pastikanTruck
  by_cases h : (lookupA s.data_truk tid).isSome
  · obtain ⟨d, hd⟩ := Option.isSome_iff_exists.mp h
    exact ⟨d, by simp [h, hd]⟩
  · have hn : lookupA s.data_truk tid = none := Option.not_isSome_iff_eq_none.mp h
    refine ⟨initTruck, ?_⟩
    simp only [hn, Option.isSome_none, Bool.false_eq_true, if_false]
    rw [lookupA_append_none _ hn]
    simp [lookupA]

theorem invRitase_pastikanTruck (s : PenghitungRitase) (tid : Nat) (hInv : InvRitase s) :
    InvRitase (s.pastikanTruck tid) := by
  obtain ⟨hnd, hpos, hsum, hmil⟩ := hInv
  unfold PenghitungRitase.pastikanTruck
  by_cases h : (lookupA s.data_truk tid).isSome
  · simp only [h, if_true]
    exact ⟨hnd, hpos, hsum, hmil⟩
  · have hn := Option.not_isSome_iff_eq_none.mp h
    simp only [hn, Option.isSome_none, Bool.false_eq_true, if_false]
    refine ⟨?_, ?_, ?_, ?_⟩
    · simp only [List.map_append, List.nodup_append]
      refine ⟨hnd, by simp, ?_⟩
      intro a ha hb
      simp at hb
      subst hb
      exact lookupA_none_not_mem hn ha
    · intro p hp
      rcases List.mem_append.mp hp with h1 | h1
      · exact hpos p h1
      · simp at h1
        subst h1
        simp [initTruck]
    · show sumA (fun d => d.ritase_count) (s.data_truk ++ [(tid, initTruck)])
        = s.total_ritase
      have h0 : sumA (fun d => d.ritase_count) [(tid, initTruck)] = 0 := rfl
      rw [sumA_append, h0]
      unfold PenghitungRitase.jumlahRitase at hsum
      omega
    · intro hhas
      obtain ⟨b, d, hb, hd, hge⟩ := hmil hhas
      exact ⟨b, d, hb, lookupA_append_some _ hd, hge⟩

theorem milikOk_update_pres {s s' : PenghitungRitase} (k : Nat) (f : TruckData → TruckData)
    (hf : ∀ d, (f d).ritase_count = d.ritase_count)
    (hdata : s'.data_truk = updateA s.data_truk k f)
    (hbest : s'.ritase_terbaik_di_siklus = s.ritase_terbaik_di_siklus)
    (hm : s.milikOk) : s'.milikOk := by
  obtain ⟨b, d, hb, hd, hge⟩ := hm
  by_cases he : b.tracker_id = k
  · refine ⟨b, f d, by rw [hbest, hb], ?_, by rw [hf]; exact hge⟩
    rw [hdata, he, lookupA_updateA_self]
    rw [he] at hd
    rw [hd]
    rfl
  · exact ⟨b, d, by rw [hbest, hb], by rw [hdata, lookupA_updateA_ne _ _ he, hd], hge⟩

theorem invRitase_update_pres {s s' : PenghitungRitase} (k : Nat) (f : TruckData → TruckData)
    (hf : ∀ d, (f d).ritase_count = d.ritase_count)
    (hdata : s'.data_truk = updateA s.data_truk k f)
    (htot : s'.total_ritase = s.total_ritase)
    (hhasf : s'.siklus_berjalan_punya_ritase = s.siklus_berjalan_punya_ritase)
    (hbest : s'.ritase_terbaik_di_siklus = s.ritase_terbaik_di_siklus)
    (hInv : InvRitase s) : InvRitase s' := by
  obtain ⟨hnd, hpos, hsum, hmil⟩ := hInv
  refine ⟨?_, ?_, ?_, ?_⟩
  · rw [hdata, keys_updateA]; exact hnd
  · rw [hdata]
    exact forall_mem_updateA (P := fun d : TruckData => 0 ≤ d.ritase_count) hpos
      (fun d h => by show 0 ≤ (f d).ritase_count; rw [hf d]; exact h)
  · show sumA _ s'.data_truk = s'.total_ritase
    rw [hdata, htot, sumA_updateA_congr _ _ hf]
    exact hsum
  · intro hhas
    rw [hhasf] at hhas
    exact milikOk_update_pres k f hf hdata hbest (hmil hhas)

theorem invRitase_selesaikan_siklus (s : PenghitungRitase) (tid : Nat)
    (hInv : InvRitase s) : InvRitase (s.selesaikan_siklus tid) := by
  unfold PenghitungRitase.selesaikan_siklus
  split
  · split
    · exact invRitase_update_pres (s := s) tid
        (fun d => { d with best_full := none, last_cycle_frame := 0,
                           last_cycle_number := (s.nomor_siklus : Int) })
        (fun d => rfl) rfl rfl rfl rfl hInv
    · exact invRitase_congr (s := s) rfl rfl rfl rfl hInv
  · exact hInv

theorem selesaikan_siklus_sama (s : PenghitungRitase) (tid : Nat) :
    (s.selesaikan_siklus tid).total_ritase = s.total_ritase ∧
    (s.selesaikan_siklus tid).truk_full_terhitung = s.truk_full_terhitung ∧
    (s.selesaikan_siklus tid).total_siklus_selesai = s.total_siklus_selesai ∧
    (s.selesaikan_siklus tid).siklus_berjalan_punya_ritase
      = s.siklus_berjalan_punya_ritase ∧
    (s.selesaikan_siklus tid).ritase_terbaik_di_siklus = s.ritase_terbaik_di_siklus ∧
    (s.selesaikan_siklus tid).nomor_siklus = s.nomor_siklus ∧
    (s.selesaikan_siklus tid).kandidat_siklus = s.kandidat_siklus ∧
    (s.selesaikan_siklus tid).ambang_kepercayaan = s.ambang_kepercayaan ∧
    (s.selesaikan_siklus tid).total_pencegahan_ganda = s.total_pencegahan_ganda ∧
    (s.selesaikan_siklus tid).total_deteksi_truk_penuh = s.total_deteksi_truk_penuh := by
  unfold PenghitungRitase.selesaikan_siklus
  split <;> simp

theorem invRitase_fold (l : List Nat) (s : PenghitungRitase) (hInv : InvRitase s) :
    InvRitase (l.foldl (fun st tid => st.selesaikan_siklus tid) s) := by
  induction l generalizing s with
  | nil => exact hInv
  | cons a rest ih => exact ih _ (invRitase_selesaikan_siklus _ _ hInv)

theorem fold_selesaikan_sama (l : List Nat) (s : PenghitungRitase) :
    (l.foldl (fun st tid => st.selesaikan_siklus tid) s).total_ritase = s.total_ritase ∧
    (l.foldl (fun st tid => st.selesaikan_siklus tid) s).truk_full_terhitung
      = s.truk_full_terhitung ∧
    (l.foldl (fun st tid => st.selesaikan_siklus tid) s).total_siklus_selesai
      = s.total_siklus_selesai ∧
    (l.foldl (fun st tid => st.selesaikan_siklus tid) s).siklus_berjalan_punya_ritase
      = s.siklus_berjalan_punya_ritase ∧
    (l.foldl (fun st tid => st.selesaikan_siklus tid) s).ritase_terbaik_di_siklus
      = s.ritase_terbaik_di_siklus ∧
    (l.foldl (fun st tid => st.selesaikan_siklus tid) s).nomor_siklus = s.nomor_siklus ∧
    (l.foldl (fun st tid => st.selesaikan_siklus tid) s).kandidat_siklus
      = s.kandidat_siklus := by
  induction l generalizing s with
  | nil => exact ⟨rfl, rfl, rfl, rfl, rfl, rfl, rfl⟩
  | cons a rest ih =>
    simp only [List.foldl_cons]
    obtain ⟨a1, a2, a3, a4, a5, a6, a7, a8, a9, a10⟩ := selesaikan_siklus_sama s a
    obtain ⟨b1, b2, b3, b4, b5, b6, b7⟩ := ih (s.selesaikan_siklus a)
    exact ⟨by rw [b1, a1], by rw [b2, a2], by rw [b3, a3], by rw [b4, a4],
      by rw [b5, a5], by rw [b6, a6], by rw [b7, a7]⟩

theorem invRitase_mk (s' : PenghitungRitase)
    (h1 : (s'.data_truk.map Prod.fst).Nodup)
    (h2 : ∀ p ∈ s'.data_truk, 0 ≤ p.2.ritase_count)
    (h3 : sumA (fun d => d.ritase_count) s'.data_truk = s'.total_ritase)
    (h4 : s'.siklus_berjalan_punya_ritase = true → s'.milikOk) : InvRitase s' :=
  ⟨h1, h2, h3, h4⟩

theorem invRitase_langkahKandidat (s : PenghitungRitase) (tid fi : Nat) (conf : ℚ)
    (hInv : InvRitase s) (hhas : s.siklus_berjalan_punya_ritase = true)
    (dt : TruckData) (htid : lookupA s.data_truk tid = some dt) :
    InvRitase (s.langkahKandidat tid fi conf) ∧
    (s.langkahKandidat tid fi conf).jumlahRitase = s.jumlahRitase ∧
    (s.langkahKandidat tid fi conf).total_ritase = s.total_ritase := by
  obtain ⟨hnd, hpos, hsum, hmil⟩ := hInv
  obtain ⟨b, d, hb, hd, hge⟩ := hmil hhas
  by_cases hc : b.confidence < conf
  · rw [langkahKandidat_swap s tid fi conf b d hb hc hd]
    have hnd1 : ((updateA s.data_truk b.tracker_id (fun d =>
        { d with ritase_count := max 0 (d.ritase_count - 1) })).map Prod.fst).Nodup := by
      rw [keys_updateA]; exact hnd
    have hsum1 : sumA (fun d => d.ritase_count)
        (updateA s.data_truk b.tracker_id (fun d =>
          { d with ritase_count := max 0 (d.ritase_count - 1) }))
        = sumA (fun d => d.ritase_count) s.data_truk - 1 := by
      rw [sumA_updateA hnd hd]
      simp only
      omega
    have step2 : ∃ dt1 : TruckData, 0 ≤ dt1.ritase_count ∧
        lookupA (updateA s.data_truk b.tracker_id (fun d =>
          { d with ritase_count := max 0 (d.ritase_count - 1) })) tid = some dt1 := by
      by_cases he : tid = b.tracker_id
      · refine ⟨{ d with ritase_count := max 0 (d.ritase_count - 1) }, by simp, ?_⟩
        rw [he, lookupA_updateA_self, hd]
        rfl
      · exact ⟨dt, hpos _ (lookupA_mem htid), by rw [lookupA_updateA_ne _ _ he, htid]⟩
    obtain ⟨dt1, hdt1pos, hlk1⟩ := step2
    have hsum2 : sumA (fun d => d.ritase_count)
        (updateA (updateA s.data_truk b.tracker_id (fun d =>
          { d with ritase_count := max 0 (d.ritase_count - 1) })) tid (fun d =>
          { d with ritase_count := d.ritase_count + 1,
                   best_full := some { full_truck_id := dedupKey tid fi,
                                       frame_index := fi, confidence := conf,
                                       cycle_number := s.nomor_siklus } }))
        = sumA (fun d => d.ritase_count) s.data_truk := by
      rw [sumA_updateA hnd1 hlk1]
      simp only
      omega
    refine ⟨invRitase_mk _ ?_ ?_ ?_ ?_, ?_, rfl⟩
    · dsimp only
      rw [keys_updateA, keys_updateA]
      exact hnd
    · dsimp only
      refine forall_mem_updateA (P := fun d : TruckData => 0 ≤ d.ritase_count) ?_ ?_
      · exact forall_mem_updateA (P := fun d : TruckData => 0 ≤ d.ritase_count) hpos
          (fun d h => by dsimp only; omega)
      · intro d h
        dsimp only
        omega
    · dsimp only
      rw [hsum2]
      exact hsum
    · intro _
      refine ⟨{ tracker_id := tid, frame_index := fi, confidence := conf,
                cycle_number := s.nomor_siklus },
        { ritase_count := dt1.ritase_count + 1,
          best_full := some { full_truck_id := dedupKey tid fi, frame_index := fi,
                              confidence := conf, cycle_number := s.nomor_siklus },
          last_cycle_frame := dt1.last_cycle_frame,
          last_cycle_number := dt1.last_cycle_number }, rfl, ?_, ?_⟩
      · dsimp only
        rw [lookupA_updateA_self, hlk1]
        rfl
      · dsimp only
        omega
    · unfold PenghitungRitase.jumlahRitase
      dsimp only
      exact hsum2
  · rw [langkahKandidat_reject s tid fi conf b hb hc]
    exact ⟨invRitase_congr (s := s) rfl rfl rfl rfl ⟨hnd, hpos, hsum, hmil⟩, rfl, rfl⟩

theorem invRitase_langkahKredit (s : PenghitungRitase) (tid fi : Nat) (conf : ℚ)
    (hInv : InvRitase s) (dt : TruckData) (htid : lookupA s.data_truk tid = some dt) :
    InvRitase (s.langkahKredit tid fi conf).1 := by
  obtain ⟨hnd, hpos, hsum, hmil⟩ := hInv
  by_cases hacc : dedupKey tid fi ∉ s.truk_full_terhitung ∧ s.ambang_kepercayaan ≤ conf
  · rw [langkahKredit_accept s tid fi conf hacc.1 hacc.2]
    have hdt0 : 0 ≤ dt.ritase_count := hpos _ (lookupA_mem htid)
    have hsum1 : sumA (fun d => d.ritase_count)
        (updateA s.data_truk tid (fun d =>
          { d with ritase_count := d.ritase_count + 1,
                   best_full := some { full_truck_id := dedupKey tid fi,
                                       frame_index := fi, confidence := conf,
                                       cycle_number := s.nomor_siklus } }))
        = sumA (fun d => d.ritase_count) s.data_truk + 1 := by
      rw [sumA_updateA hnd htid]
      simp only
      omega
    refine invRitase_mk _ ?_ ?_ ?_ ?_
    · dsimp only
      rw [keys_updateA]
      exact hnd
    · dsimp only
      refine forall_mem_updateA (P := fun d : TruckData => 0 ≤ d.ritase_count) hpos ?_
      intro d h
      dsimp only
      omega
    · dsimp only
      rw [hsum1]
      unfold PenghitungRitase.jumlahRitase at hsum
      omega
    · intro _
      refine ⟨{ tracker_id := tid, frame_index := fi, confidence := conf,
                cycle_number := s.nomor_siklus },
        { ritase_count := dt.ritase_count + 1,
          best_full := some { full_truck_id := dedupKey tid fi, frame_index := fi,
                              confidence := conf, cycle_number := s.nomor_siklus },
          last_cycle_frame := dt.last_cycle_frame,
          last_cycle_number := dt.last_cycle_number }, rfl, ?_, ?_⟩
      · dsimp only
        rw [lookupA_updateA_self, htid]
        rfl
      · dsimp only
        omega
  · rw [langkahKredit_reject s tid fi conf hacc]
    exact ⟨hnd, hpos, hsum, hmil⟩

theorem invRitase_selesaikan_siklus_global (s : PenghitungRitase)
    (hInv : InvRitase s) : InvRitase s.selesaikan_siklus_global := by
  unfold PenghitungRitase.selesaikan_siklus_global
  have hf := invRitase_fold
    (((s.siklus_aktif.filter (fun p => 0 < p.2.length)).map Prod.fst)) s hInv
  dsimp only
  split
  · obtain ⟨g1, g2, g3, g4⟩ := hf
    refine ⟨?_, ?_, ?_, ?_⟩
    · exact g1
    · exact g2
    · exact g3
    · intro h
      simp at h
  · exact hf

theorem invRitase_proses (s : PenghitungRitase) (tid cid fi : Nat) (conf : ℚ)
    (hInv : InvRitase s) : InvRitase (s.proses_deteksi tid cid fi conf).1 := by
  have hP := invRitase_pastikanTruck s tid hInv
  obtain ⟨dt, hdt⟩ := pastikanTruck_lookup s tid
  unfold PenghitungRitase.proses_deteksi
  by_cases h6 : cid = CLASS_TRUCK_FULL
  · rw [if_pos h6]
    have hInv1 : InvRitase { s.pastikanTruck tid with
        total_deteksi_truk_penuh := (s.pastikanTruck tid).total_deteksi_truk_penuh + 1 } :=
      invRitase_congr (s := s.pastikanTruck tid) rfl rfl rfl rfl hP
    by_cases hr : (s.pastikanTruck tid).siklus_berjalan_punya_ritase = true
    · rw [if_pos hr]
      exact (invRitase_langkahKandidat _ tid fi conf hInv1 hr dt hdt).1
    · rw [if_neg hr]
      exact invRitase_langkahKredit _ tid fi conf hInv1 dt hdt
  · rw [if_neg h6]
    by_cases h2 : cid = CLASS_BUCKET_DUMPING
    · rw [if_pos h2]
      exact invRitase_selesaikan_siklus_global _ hP
    · rw [if_neg h2]
      exact hP

/-! ## Shape lemmas for the passing step function -/

theorem pastikanExcavator_lookup (s0 : PenghitungPassing) (tid : Nat) :
    lookupA (s0.pastikanExcavator tid).excavators tid
      = some ((lookupA s0.excavators tid).getD initExcavator) := by
  unfold PenghitungPassing.pastikanExcavator
  cases h : lookupA s0.excavators tid with
  | some e => simp [h]
  | none =>
    simp only [h, Option.isSome_none, Bool.false_eq_true, if_false, Option.getD_none]
    rw [lookupA_append_none _ h]
    simp [lookupA]

theorem pastikanExcavator_hitung (s0 : PenghitungPassing) (tid k : Nat) :
    (s0.pastikanExcavator tid).hitungExcavator k = s0.hitungExcavator k := by
  unfold PenghitungPassing.hitungExcavator PenghitungPassing.pastikanExcavator
  cases h : lookupA s0.excavators tid with
  | some e => simp [h]
  | none =>
    simp only [h, Option.isSome_none, Bool.false_eq_true, if_false]
    cases hl : lookupA s0.excavators k with
    | some e => rw [lookupA_append_some _ hl]
    | none =>
      rw [lookupA_append_none _ hl]
      by_cases hk : tid = k
      · subst hk
        rw [lookupA_cons, if_pos rfl]
        rfl
      · rw [lookupA_cons, if_neg hk]
        rfl

theorem pastikanExcavator_kandidat (s0 : PenghitungPassing) (tid : Nat) :
    (s0.pastikanExcavator tid).kandidatTerbaik tid = s0.kandidatTerbaik tid := by
  unfold PenghitungPassing.kandidatTerbaik
  rw [pastikanExcavator_lookup]
  rfl

theorem proses_passing_nondump (s0 : PenghitungPassing) (tid cid fi : Nat) (conf : ℚ)
    (h : cid ≠ CLASS_BUCKET_DUMPING) :
    s0.proses_deteksi tid cid fi conf = (s0.pastikanExcavator tid, false) := by
  unfold PenghitungPassing.proses_deteksi
  rw [if_neg h]

theorem proses_passing_tolak (s0 : PenghitungPassing) (tid fi : Nat) (conf : ℚ)
    (h : dedupKey tid fi ∈ s0.counted_dumps ∨ conf < s0.min_confidence) :
    s0.proses_deteksi tid CLASS_BUCKET_DUMPING fi conf
      = (s0.pastikanExcavator tid, false) := by
  unfold PenghitungPassing.proses_deteksi
  rw [if_pos rfl]
  exact if_pos h

theorem proses_passing_pertama (s0 : PenghitungPassing) (tid fi : Nat) (conf : ℚ)
    (hfresh : dedupKey tid fi ∉ s0.counted_dumps)
    (hconf : ¬ conf < s0.min_confidence)
    (hbest : s0.kandidatTerbaik tid = none) :
    s0.proses_deteksi tid CLASS_BUCKET_DUMPING fi conf =
      (let sP := s0.pastikanExcavator tid
       { sP with
         active_cycle := appendCycle sP.active_cycle tid
           { dump_id := dedupKey tid fi, frame_index := fi, confidence := conf },
         excavators := updateA sP.excavators tid (fun e =>
           { e with
             best_dump := some { dump_id := dedupKey tid fi, frame_index := fi,
                                 confidence := conf },
             passing_count := e.passing_count + 1 }),
         total_passing := sP.total_passing + 1,
         counted_dumps := sP.counted_dumps ++ [dedupKey tid fi] }, true) := by
  unfold PenghitungPassing.proses_deteksi
  rw [if_pos rfl]
  rw [if_neg (by
    intro hor
    rcases hor with h1 | h2
    · exact hfresh h1
    · exact hconf h2)]
  dsimp only
  rw [pastikanExcavator_lookup]
  simp only [Option.getD_some]
  unfold PenghitungPassing.kandidatTerbaik at hbest
  rw [hbest]

theorem proses_passing_ganti (s0 : PenghitungPassing) (tid fi : Nat) (conf : ℚ)
    (ob : BestDump)
    (hfresh : dedupKey tid fi ∉ s0.counted_dumps)
    (hconf : ¬ conf < s0.min_confidence)
    (hbest : s0.kandidatTerbaik tid = some ob)
    (hup : ob.confidence < conf) :
    s0.proses_deteksi tid CLASS_BUCKET_DUMPING fi conf =
      (let sP := s0.pastikanExcavator tid
       { sP with
         active_cycle := appendCycle sP.active_cycle tid
           { dump_id := dedupKey tid fi, frame_index := fi, confidence := conf },
         excavators := updateA sP.excavators tid (fun e =>
           { e with
             best_dump := some { dump_id := dedupKey tid fi, frame_index := fi,
                                 confidence := conf } }),
         counted_dumps := sP.counted_dumps ++ [dedupKey tid fi] }, false) := by
  unfold PenghitungPassing.proses_deteksi
  rw [if_pos rfl]
  rw [if_neg (by
    intro hor
    rcases hor with h1 | h2
    · exact hfresh h1
    · exact hconf h2)]
  dsimp only
  rw [pastikanExcavator_lookup]
  simp only [Option.getD_some]
  unfold PenghitungPassing.kandidatTerbaik at hbest
  rw [hbest]
  dsimp only
  rw [if_pos hup]

theorem proses_passing_tetap (s0 : PenghitungPassing) (tid fi : Nat) (conf : ℚ)
    (ob : BestDump)
    (hfresh : dedupKey tid fi ∉ s0.counted_dumps)
    (hconf : ¬ conf < s0.min_confidence)
    (hbest : s0.kandidatTerbaik tid = some ob)
    (hup : ¬ ob.confidence < conf) :
    s0.proses_deteksi tid CLASS_BUCKET_DUMPING fi conf =
      (let sP := s0.pastikanExcavator tid
       { sP with
         active_cycle := appendCycle sP.active_cycle tid
           { dump_id := dedupKey tid fi, frame_index := fi, confidence := conf },
         counted_dumps := sP.counted_dumps ++ [dedupKey tid fi] }, false) := by
  unfold PenghitungPassing.proses_deteksi
  rw [if_pos rfl]
  rw [if_neg (by
    intro hor
    rcases hor with h1 | h2
    · exact hfresh h1
    · exact hconf h2)]
  dsimp only
  rw [pastikanExcavator_lookup]
  simp only [Option.getD_some]
  unfold PenghitungPassing.kandidatTerbaik at hbest
  rw [hbest]
  dsimp only
  rw [if_neg hup]

/-! ## Invariant preservation for the passing counter -/

theorem sumA_map_const {α : Type} (g : α → Int) (c : α) (l : List (Nat × α))
    (h : g c = 0) :
    sumA g (l.map (fun p => (p.1, c))) = 0 := by
  induction l with
  | nil => rfl
  | cons p rest ih =>
    rw [List.map_cons, sumA_cons, ih, h]
    omega

theorem invPassing_congr {s s' : PenghitungPassing}
    (h1 : s'.excavators = s.excavators) (h2 : s'.total_passing = s.total_passing)
    (hInv : InvPassing s) : InvPassing s' := by
  unfold InvPassing PenghitungPassing.jumlahPassing at hInv ⊢
  rw [h1, h2]
  exact hInv

theorem invPassing_pastikan (s : PenghitungPassing) (tid : Nat)
    (hInv : InvPassing s) : InvPassing (s.pastikanExcavator tid) := by
  obtain ⟨hnd, hsum⟩ := hInv
  unfold PenghitungPassing.pastikanExcavator
  by_cases h : (lookupA s.excavators tid).isSome
  · simp only [h, if_true]
    exact ⟨hnd, hsum⟩
  · have hn := Option.not_isSome_iff_eq_none.mp h
    simp only [hn, Option.isSome_none, Bool.false_eq_true, if_false]
    constructor
    · simp only [List.map_append, List.nodup_append]
      refine ⟨hnd, by simp, ?_⟩
      intro a ha hb
      simp at hb
      subst hb
      exact lookupA_none_not_mem hn ha
    · show sumA (fun e => e.passing_count) (s.excavators ++ [(tid, initExcavator)])
        = s.total_passing
      have h0 : sumA (fun e => e.passing_count) [(tid, initExcavator)] = 0 := rfl
      rw [sumA_append, h0]
      unfold PenghitungPassing.jumlahPassing at hsum
      omega

theorem invPassing_proses (s : PenghitungPassing) (tid cid fi : Nat) (conf : ℚ)
    (hInv : InvPassing s) : InvPassing (s.proses_deteksi tid cid fi conf).1 := by
  have hP := invPassing_pastikan s tid hInv
  obtain ⟨hnd, hsum⟩ := hP
  unfold PenghitungPassing.jumlahPassing at hsum
  by_cases h2 : cid = CLASS_BUCKET_DUMPING
  · subst h2
    by_cases hrej : dedupKey tid fi ∈ s.counted_dumps ∨ conf < s.min_confidence
    · rw [proses_passing_tolak s tid fi conf hrej]
      exact ⟨hnd, hsum⟩
    · push_neg at hrej
      obtain ⟨hfresh, hconf⟩ := hrej
      have hconf2 : ¬ conf < s.min_confidence := not_lt.mpr hconf
      have hlk := pastikanExcavator_lookup s tid
      cases hbest : s.kandidatTerbaik tid with
      | none =>
        rw [proses_passing_pertama s tid fi conf hfresh hconf2 hbest]
        refine ⟨?_, ?_⟩
        · dsimp only
          rw [keys_updateA]
          exact hnd
        · unfold PenghitungPassing.jumlahPassing
          dsimp only
          rw [sumA_updateA hnd hlk]
          dsimp only
          omega
      | some ob =>
        by_cases hup : ob.confidence < conf
        · rw [proses_passing_ganti s tid fi conf ob hfresh hconf2 hbest hup]
          refine ⟨?_, ?_⟩
          · dsimp only
            rw [keys_updateA]
            exact hnd
          · unfold PenghitungPassing.jumlahPassing
            dsimp only
            rw [sumA_updateA hnd hlk]
            dsimp only
            omega
        · rw [proses_passing_tetap s tid fi conf ob hfresh hconf2 hbest hup]
          exact invPassing_congr (s := s.pastikanExcavator tid) rfl rfl ⟨hnd, hsum⟩
  · rw [proses_passing_nondump s tid cid fi conf h2]
    exact ⟨hnd, hsum⟩

theorem invPassing_selesaikan (s : PenghitungPassing) (tid : Nat)
    (hInv : InvPassing s) : InvPassing (s.selesaikan_siklus tid) := by
  obtain ⟨hnd, hsum⟩ := hInv
  unfold PenghitungPassing.selesaikan_siklus
  split
  · split
    · refine ⟨?_, ?_⟩
      · dsimp only
        rw [keys_updateA]
        exact hnd
      · unfold PenghitungPassing.jumlahPassing
        dsimp only
        rw [sumA_updateA_congr (g := fun e : ExcavatorData => e.passing_count)
          (f := fun e : ExcavatorData =>
            ({ passing_count := e.passing_count, best_dump := none } : ExcavatorData))
          _ _ (fun e => rfl)]
        exact hsum
    · exact ⟨hnd, hsum⟩
  · exact ⟨hnd, hsum⟩

theorem invPassing_reset (s : PenghitungPassing) (hInv : InvPassing s) :
    InvPassing s.reset_all_counters := by
  unfold PenghitungPassing.reset_all_counters
  refine ⟨?_, ?_⟩
  · dsimp only
    have hfst : (Prod.fst ∘ fun p : Nat × ExcavatorData =>
        (p.1, ({ passing_count := 0, best_dump := none } : ExcavatorData)))
        = Prod.fst := funext (fun p => rfl)
    rw [List.map_map, hfst]
    exact hInv.1
  · unfold PenghitungPassing.jumlahPassing
    dsimp only
    exact sumA_map_const _ _ _ rfl

/-! ## Further helper lemmas on the ritase counter -/

theorem pastikanTruck_lookup_getD (s : PenghitungRitase) (tid : Nat) :
    lookupA (s.pastikanTruck tid).data_truk tid
      = some ((lookupA s.data_truk tid).getD initTruck) := by
  unfold PenghitungRitase.pastikanTruck
  cases h : lookupA s.data_truk tid with
  | some d => simp [h]
  | none =>
    simp only [h, Option.isSome_none, Bool.false_eq_true, if_false, Option.getD_none]
    rw [lookupA_append_none _ h]
    simp [lookupA]

theorem pastikanTruck_lookup_pres (s : PenghitungRitase) (tid k : Nat) (d : TruckData)
    (h : lookupA s.data_truk k = some d) :
    lookupA (s.pastikanTruck tid).data_truk k = some d := by
  unfold PenghitungRitase.pastikanTruck
  by_cases ht : (lookupA s.data_truk tid).isSome
  · simp only [ht, if_true]
    exact h
  · have hn := Option.not_isSome_iff_eq_none.mp ht
    simp only [hn, Option.isSome_none, Bool.false_eq_true, if_false]
    exact lookupA_append_some _ h

theorem pastikanTruck_hitung (s : PenghitungRitase) (tid k : Nat) :
    (s.pastikanTruck tid).hitungTruk k = s.hitungTruk k := by
  unfold PenghitungRitase.hitungTruk PenghitungRitase.pastikanTruck
  cases h : lookupA s.data_truk tid with
  | some d => simp [h]
  | none =>
    simp only [h, Option.isSome_none, Bool.false_eq_true, if_false]
    cases hl : lookupA s.data_truk k with
    | some e => rw [lookupA_append_some _ hl]
    | none =>
      rw [lookupA_append_none _ hl]
      by_cases hk : tid = k
      · subst hk
        rw [lookupA_cons, if_pos rfl]
        rfl
      · rw [lookupA_cons, if_neg hk]
        rfl

theorem pastikanTruck_jumlah (s : PenghitungRitase) (tid : Nat) :
    (s.pastikanTruck tid).jumlahRitase = s.jumlahRitase := by
  unfold PenghitungRitase.jumlahRitase PenghitungRitase.pastikanTruck
  by_cases h : (lookupA s.data_truk tid).isSome
  · simp [h]
  · have hn := Option.not_isSome_iff_eq_none.mp h
    simp only [hn, Option.isSome_none, Bool.false_eq_true, if_false]
    rw [sumA_append]
    have h0 : sumA (fun d => d.ritase_count) [(tid, initTruck)] = 0 := rfl
    omega

theorem selesaikan_siklus_hitung (s : PenghitungRitase) (tid k : Nat) :
    (s.selesaikan_siklus tid).hitungTruk k = s.hitungTruk k := by
  unfold PenghitungRitase.selesaikan_siklus PenghitungRitase.hitungTruk
  split
  · split
    · dsimp only
      by_cases hk : k = tid
      · subst hk
        rw [lookupA_updateA_self]
        cases hl : lookupA s.data_truk k <;> rfl
      · rw [lookupA_updateA_ne _ _ hk]
    · rfl
  · rfl

theorem fold_selesaikan_hitung (l : List Nat) (s : PenghitungRitase) (k : Nat) :
    (l.foldl (fun st tid => st.selesaikan_siklus tid) s).hitungTruk k = s.hitungTruk k := by
  induction l generalizing s with
  | nil => rfl
  | cons a rest ih =>
    simp only [List.foldl_cons]
    rw [ih, selesaikan_siklus_hitung]

theorem selesaikan_siklus_global_sama (s : PenghitungRitase) :
    s.selesaikan_siklus_global.total_ritase = s.total_ritase ∧
    s.selesaikan_siklus_global.truk_full_terhitung = s.truk_full_terhitung ∧
    (∀ k, s.selesaikan_siklus_global.hitungTruk k = s.hitungTruk k) := by
  unfold PenghitungRitase.selesaikan_siklus_global
  dsimp only
  obtain ⟨f1, f2, f3, f4, f5, f6, f7⟩ := fold_selesaikan_sama
    ((s.siklus_aktif.filter (fun p => 0 < p.2.length)).map Prod.fst) s
  split
  · refine ⟨f1, f2, ?_⟩
    intro k
    show (PenghitungRitase.hitungTruk _ k) = _
    unfold PenghitungRitase.hitungTruk
    dsimp only
    exact fold_selesaikan_hitung _ s k
  · exact ⟨f1, f2, fun k => fold_selesaikan_hitung _ s k⟩

theorem selesaikan_siklus_global_aktif (s : PenghitungRitase)
    (hcond : ((s.siklus_aktif.filter (fun p => 0 < p.2.length)).map Prod.fst) ≠ []
      ∨ s.siklus_berjalan_punya_ritase = true) :
    s.selesaikan_siklus_global.nomor_siklus = s.nomor_siklus + 1 ∧
    s.selesaikan_siklus_global.total_siklus_selesai = s.total_siklus_selesai + 1 ∧
    s.selesaikan_siklus_global.siklus_berjalan_punya_ritase = false ∧
    s.selesaikan_siklus_global.ritase_terbaik_di_siklus = none ∧
    s.selesaikan_siklus_global.kandidat_siklus = [] := by
  unfold PenghitungRitase.selesaikan_siklus_global
  dsimp only
  obtain ⟨f1, f2, f3, f4, f5, f6, f7⟩ := fold_selesaikan_sama
    ((s.siklus_aktif.filter (fun p => 0 < p.2.length)).map Prod.fst) s
  rw [if_pos hcond]
  exact ⟨by dsimp only; rw [f6], by dsimp only; rw [f3], rfl, rfl, rfl⟩

theorem selesaikan_siklus_global_diam (s : PenghitungRitase)
    (h1 : ∀ p ∈ s.siklus_aktif, p.2 = [])
    (h2 : s.siklus_berjalan_punya_ritase = false) :
    s.selesaikan_siklus_global = s := by
  unfold PenghitungRitase.selesaikan_siklus_global
  have hfil : s.siklus_aktif.filter (fun p => 0 < p.2.length) = [] := by
    rw [List.filter_eq_nil_iff]
    intro p hp
    simp [h1 p hp]
  rw [hfil]
  simp [h2]

theorem pastikanTruck_of_isSome (s : PenghitungRitase) (tid : Nat)
    (h : (lookupA s.data_truk tid).isSome) : s.pastikanTruck tid = s := by
  unfold PenghitungRitase.pastikanTruck
  rw [if_pos h]

theorem pastikanExcavator_of_isSome (s : PenghitungPassing) (tid : Nat)
    (h : (lookupA s.excavators tid).isSome) : s.pastikanExcavator tid = s := by
  unfold PenghitungPassing.pastikanExcavator
  rw [if_pos h]

theorem proses_full_has (s : PenghitungRitase) (tid fi : Nat) (conf : ℚ)
    (hhas : s.siklus_berjalan_punya_ritase = true) :
    (s.proses_deteksi tid CLASS_TRUCK_FULL fi conf).2 = false ∧
    (s.proses_deteksi tid CLASS_TRUCK_FULL fi conf).1.total_ritase = s.total_ritase ∧
    (s.proses_deteksi tid CLASS_TRUCK_FULL fi conf).1.siklus_berjalan_punya_ritase
      = true := by
  unfold PenghitungRitase.proses_deteksi
  rw [if_pos rfl]
  dsimp only
  have hh : (s.pastikanTruck tid).siklus_berjalan_punya_ritase = true := hhas
  rw [if_pos hh]
  obtain ⟨t1, t2, t3, t4, t5, t6⟩ := langkahKandidat_sama
    { s.pastikanTruck tid with
      total_deteksi_truk_penuh := (s.pastikanTruck tid).total_deteksi_truk_penuh + 1 }
    tid fi conf
  exact ⟨rfl, t1, by rw [t2]; exact hhas⟩

theorem proses_ritase_seen (s : PenghitungRitase) (tid cid fi : Nat) (conf : ℚ)
    (hseen : dedupKey tid fi ∈ s.truk_full_terhitung) :
    (s.proses_deteksi tid cid fi conf).2 = false ∧
    (s.proses_deteksi tid cid fi conf).1.total_ritase = s.total_ritase := by
  unfold PenghitungRitase.proses_deteksi
  by_cases h6 : cid = CLASS_TRUCK_FULL
  · rw [if_pos h6]
    dsimp only
    by_cases hr : (s.pastikanTruck tid).siklus_berjalan_punya_ritase = true
    · rw [if_pos hr]
      obtain ⟨t1, _, _, _, _, _⟩ := langkahKandidat_sama
        { s.pastikanTruck tid with
          total_deteksi_truk_penuh := (s.pastikanTruck tid).total_deteksi_truk_penuh + 1 }
        tid fi conf
      exact ⟨rfl, t1⟩
    · rw [if_neg hr]
      rw [langkahKredit_reject
        { s.pastikanTruck tid with
          total_deteksi_truk_penuh := (s.pastikanTruck tid).total_deteksi_truk_penuh + 1 }
        tid fi conf (fun hand => hand.1 hseen)]
      exact ⟨rfl, rfl⟩
  · rw [if_neg h6]
    by_cases h2 : cid = CLASS_BUCKET_DUMPING
    · rw [if_pos h2]
      exact ⟨rfl, (selesaikan_siklus_global_sama (s.pastikanTruck tid)).1⟩
    · rw [if_neg h2]
      exact ⟨rfl, rfl⟩

theorem proses_passing_seen (s : PenghitungPassing) (tid cid fi : Nat) (conf : ℚ)
    (hseen : dedupKey tid fi ∈ s.counted_dumps) :
    (s.proses_deteksi tid cid fi conf).2 = false ∧
    (s.proses_deteksi tid cid fi conf).1.total_passing = s.total_passing ∧
    (∀ k, (s.proses_deteksi tid cid fi conf).1.hitungExcavator k
      = s.hitungExcavator k) := by
  by_cases h2 : cid = CLASS_BUCKET_DUMPING
  · subst h2
    rw [proses_passing_tolak s tid fi conf (Or.inl hseen)]
    exact ⟨rfl, rfl, fun k => pastikanExcavator_hitung s tid k⟩
  · rw [proses_passing_nondump s tid cid fi conf h2]
    exact ⟨rfl, rfl, fun k => pastikanExcavator_hitung s tid k⟩

theorem pastikanExcavator_of_none (s : PenghitungPassing) (tid : Nat)
    (h : lookupA s.excavators tid = none) :
    s.pastikanExcavator tid
      = { s with excavators := s.excavators ++ [(tid, initExcavator)] } := by
  unfold PenghitungPassing.pastikanExcavator
  rw [h]
  rfl

theorem lookupA_map_reset_truk (l : List (Nat × TruckData)) (k : Nat) :
    ((lookupA (l.map (fun p =>
      (p.1, ({ ritase_count := 0, best_full := none,
               last_cycle_frame := p.2.last_cycle_frame,
               last_cycle_number := p.2.last_cycle_number } : TruckData)))) k).getD
      initTruck).ritase_count = 0 := by
  induction l with
  | nil => rfl
  | cons p rest ih =>
    obtain ⟨k0, v0⟩ := p
    rw [List.map_cons]
    dsimp only
    rw [lookupA_cons]
    by_cases hk : k0 = k
    · rw [if_pos hk]
      rfl
    · rw [if_neg hk]
      exact ih

theorem lookupA_map_reset_exc (l : List (Nat × ExcavatorData)) (k : Nat) :
    (lookupA (l.map (fun p =>
      (p.1, ({ passing_count := 0, best_dump := none } : ExcavatorData)))) k).getD
      initExcavator = initExcavator := by
  induction l with
  | nil => rfl
  | cons p rest ih =>
    obtain ⟨k0, v0⟩ := p
    rw [List.map_cons]
    dsimp only
    rw [lookupA_cons]
    by_cases hk : k0 = k
    · rw [if_pos hk]
      rfl
    · rw [if_neg hk]
      exact ih

theorem prosesSemua_full (l : List (Nat × Nat × Nat × ℚ)) (s : PenghitungRitase)
    (hhas : s.siklus_berjalan_punya_ritase = true)
    (hl : ∀ a ∈ l, a.2.1 = CLASS_TRUCK_FULL) :
    (s.prosesSemua l).total_ritase = s.total_ritase ∧
    (s.prosesSemua l).siklus_berjalan_punya_ritase = true := by
  induction l generalizing s with
  | nil => exact ⟨rfl, hhas⟩
  | cons a rest ih =>
    have ha : a.2.1 = CLASS_TRUCK_FULL := hl a (List.mem_cons_self _ _)
    unfold PenghitungRitase.prosesSemua
    rw [List.foldl_cons, ha]
    obtain ⟨p1, p2, p3⟩ := proses_full_has s a.1 a.2.2.1 a.2.2.2 hhas
    have hrest := ih ((s.proses_deteksi a.1 CLASS_TRUCK_FULL a.2.2.1 a.2.2.2).1) p3
      (fun b hb => hl b (List.mem_cons_of_mem _ hb))
    unfold PenghitungRitase.prosesSemua at hrest
    exact ⟨by rw [hrest.1, p2], hrest.2⟩

/-! ## The claims -/

/-- C6: end-to-end over a fresh ritase counter with threshold 0.9: truck 100
full at frame 50 conf 0.95 returns true with total 1; bucket 200 dumping at
frame 60 conf 0.9 closes the global cycle (cycle number 1, flag cleared);
truck 100 full again at frame 70 conf 0.92 returns true with total 2. -/
theorem claim_C6 :
    (let s0 := PenghitungRitase.init (mkRat 9 10)
     let r1 := s0.proses_deteksi 100 CLASS_TRUCK_FULL 50 (mkRat 95 100)
     let r2 := r1.1.proses_deteksi 200 CLASS_BUCKET_DUMPING 60 (mkRat 9 10)
     let r3 := r2.1.proses_deteksi 100 CLASS_TRUCK_FULL 70 (mkRat 92 100)
     r1.2 = true ∧ r1.1.total_ritase = 1 ∧
     r2.1.nomor_siklus = 1 ∧ r2.1.siklus_berjalan_punya_ritase = false ∧
     r3.2 = true ∧ r3.1.total_ritase = 2) := by
  decide

/-- C9: reset_counters zeroes the running total, every per-truck count and
best candidate, but leaves cycle numbering, completed-cycle count and the
dedup seen-set unchanged, while the passing counter's reset_all_counters
does clear its seen-set. -/
theorem claim_C9 (s : PenghitungRitase) :
    s.reset_counters.total_ritase = 0 ∧
    s.reset_counters.data_truk = s.data_truk.map (fun p =>
      (p.1, { ritase_count := 0, best_full := none,
              last_cycle_frame := p.2.last_cycle_frame,
              last_cycle_number := p.2.last_cycle_number })) ∧
    (∀ k, s.reset_counters.hitungTruk k = 0) ∧
    s.reset_counters.nomor_siklus = s.nomor_siklus ∧
    s.reset_counters.total_siklus_selesai = s.total_siklus_selesai ∧
    s.reset_counters.truk_full_terhitung = s.truk_full_terhitung ∧
    (∀ s2 : PenghitungPassing, s2.reset_all_counters.counted_dumps = []) := by
  refine ⟨rfl, rfl, ?_, rfl, rfl, rfl, fun s2 => rfl⟩
  intro k
  unfold PenghitungRitase.hitungTruk PenghitungRitase.reset_counters
  dsimp only
  exact lookupA_map_reset_truk s.data_truk k

/-- C5: closing the global cycle increments the cycle number and the
completed-cycle counter by exactly one when some truck has a non-empty
active-cycle detection list or the running cycle has a credited ritase
(also clearing the flag, the best record and the candidate trail); with
neither condition it changes nothing at all. -/
theorem claim_C5 (s : PenghitungRitase) :
    ((∃ p ∈ s.siklus_aktif, p.2 ≠ []) ∨ s.siklus_berjalan_punya_ritase = true →
      s.selesaikan_siklus_global.nomor_siklus = s.nomor_siklus + 1 ∧
      s.selesaikan_siklus_global.total_siklus_selesai = s.total_siklus_selesai + 1 ∧
      s.selesaikan_siklus_global.siklus_berjalan_punya_ritase = false ∧
      s.selesaikan_siklus_global.ritase_terbaik_di_siklus = none ∧
      s.selesaikan_siklus_global.kandidat_siklus = [] ∧
      (∀ k, s.selesaikan_siklus_global.hitungTruk k = s.hitungTruk k) ∧
      s.selesaikan_siklus_global.total_ritase = s.total_ritase) ∧
    ((∀ p ∈ s.siklus_aktif, p.2 = []) → s.siklus_berjalan_punya_ritase = false →
      s.selesaikan_siklus_global = s) := by
  constructor
  · intro hcond
    have hcond2 : ((s.siklus_aktif.filter (fun p => 0 < p.2.length)).map Prod.fst) ≠ []
        ∨ s.siklus_berjalan_punya_ritase = true := by
      rcases hcond with ⟨p, hp, hne⟩ | hr
      · left
        intro hnil
        rw [List.map_eq_nil_iff, List.filter_eq_nil_iff] at hnil
        exact absurd (List.length_pos.mpr hne) (by simpa using hnil p hp)
      · right
        exact hr
    obtain ⟨a1, a2, a3, a4, a5⟩ := selesaikan_siklus_global_aktif s hcond2
    obtain ⟨t1, _, t3⟩ := selesaikan_siklus_global_sama s
    exact ⟨a1, a2, a3, a4, a5, t3, t1⟩
  · intro h1 h2
    exact selesaikan_siklus_global_diam s h1 h2

/-- C5 witness: on the state after one credited ritase the close bumps the
cycle number to 1; on the fresh counter the close is the identity. -/
theorem claim_C5_witness :
    (((PenghitungRitase.init (mkRat 1 2)).proses_deteksi 1 CLASS_TRUCK_FULL 10
        (mkRat 9 10)).1.selesaikan_siklus_global.nomor_siklus
      = ((PenghitungRitase.init (mkRat 1 2)).proses_deteksi 1 CLASS_TRUCK_FULL 10
        (mkRat 9 10)).1.nomor_siklus + 1) ∧
    (PenghitungRitase.init (mkRat 1 2)).selesaikan_siklus_global
      = PenghitungRitase.init (mkRat 1 2) :=
  ⟨((claim_C5 _).1 (Or.inr (by decide))).1,
   (claim_C5 _).2 (by decide) (by decide)⟩

/-- C8: reset_all_counters zeroes every excavator count, clears every best
candidate, the running total, the active-cycle map and the whole dedup
seen-set, after which any dump at or above the threshold (in particular a
previously seen identity) is counted as a fresh passing. -/
theorem claim_C8 (s : PenghitungPassing) :
    s.reset_all_counters.total_passing = 0 ∧
    (∀ k, s.reset_all_counters.hitungExcavator k = 0) ∧
    (∀ k, s.reset_all_counters.kandidatTerbaik k = none) ∧
    s.reset_all_counters.active_cycle = [] ∧
    s.reset_all_counters.counted_dumps = [] ∧
    (∀ tid fi : Nat, ∀ conf : ℚ, ¬ conf < s.min_confidence →
      (s.reset_all_counters.proses_deteksi tid CLASS_BUCKET_DUMPING fi conf).2
        = true ∧
      (s.reset_all_counters.proses_deteksi tid CLASS_BUCKET_DUMPING fi
        conf).1.total_passing = 1) := by
  refine ⟨rfl, ?_, ?_, rfl, rfl, ?_⟩
  · intro k
    unfold PenghitungPassing.hitungExcavator PenghitungPassing.reset_all_counters
    dsimp only
    rw [lookupA_map_reset_exc]
    rfl
  · intro k
    unfold PenghitungPassing.kandidatTerbaik PenghitungPassing.reset_all_counters
    dsimp only
    rw [lookupA_map_reset_exc]
    rfl
  · intro tid fi conf hconf
    have hfresh : dedupKey tid fi ∉ s.reset_all_counters.counted_dumps := by
      intro h
      exact absurd h (List.not_mem_nil _)
    have hconf2 : ¬ conf < s.reset_all_counters.min_confidence := hconf
    have hbest : s.reset_all_counters.kandidatTerbaik tid = none := by
      unfold PenghitungPassing.kandidatTerbaik PenghitungPassing.reset_all_counters
      dsimp only
      rw [lookupA_map_reset_exc]
      rfl
    rw [proses_passing_pertama s.reset_all_counters tid fi conf hfresh hconf2 hbest]
    exact ⟨rfl, rfl⟩

/-- C8 witness: after resetting a counter that has already counted the dump
of excavator 1 at frame 10, the very same identity is accepted and counted
again. -/
theorem claim_C8_witness :
    (let s1 := ((PenghitungPassing.init (mkRat 1 2)).proses_deteksi 1
      CLASS_BUCKET_DUMPING 10 (mkRat 9 10)).1
     (s1.reset_all_counters.proses_deteksi 1 CLASS_BUCKET_DUMPING 10
       (mkRat 9 10)).2 = true ∧
     (s1.reset_all_counters.proses_deteksi 1 CLASS_BUCKET_DUMPING 10
       (mkRat 9 10)).1.total_passing = 1) :=
  (claim_C8 _).2.2.2.2.2 1 10 (mkRat 9 10) (by decide)

/-- C3 counterexample: reaching a state whose seen-set contains identity
1_10 (credited in a closed cycle) and whose running cycle credited truck 2
with a weaker detection, re-processing the already seen detection of truck 1
swaps the best candidate and changes truck 2's ritase count from 1 to 0, so
re-processing a seen identity is not count-neutral on the ritase counter. -/
theorem claim_C3_counterexample :
    (let q3 := ((((PenghitungRitase.init (mkRat 1 2)).proses_deteksi 1
      CLASS_TRUCK_FULL 10 (mkRat 9 10)).1.proses_deteksi 5 CLASS_BUCKET_DUMPING 11
      (mkRat 9 10)).1.proses_deteksi 2 CLASS_TRUCK_FULL 20 (mkRat 6 10)).1
     dedupKey 1 10 ∈ q3.truk_full_terhitung ∧
     q3.hitungTruk 2 = 1 ∧
     (q3.proses_deteksi 1 CLASS_TRUCK_FULL 10 (mkRat 9 10)).1.hitungTruk 2
       ≠ q3.hitungTruk 2) := by
  decide

/-- C3 amended: re-processing a detection whose identity is already in the
seen-set returns false and never changes any total; the passing counter also
changes no per-excavator count, while the ritase counter's per-truck counts
can still move through a best-candidate swap. -/
theorem claim_C3 :
    (∀ (sP : PenghitungPassing) (tid cid fi : Nat) (conf : ℚ),
      dedupKey tid fi ∈ sP.counted_dumps →
      (sP.proses_deteksi tid cid fi conf).2 = false ∧
      (sP.proses_deteksi tid cid fi conf).1.total_passing = sP.total_passing ∧
      (∀ k, (sP.proses_deteksi tid cid fi conf).1.hitungExcavator k
        = sP.hitungExcavator k)) ∧
    (∀ (sR : PenghitungRitase) (tid cid fi : Nat) (conf : ℚ),
      dedupKey tid fi ∈ sR.truk_full_terhitung →
      (sR.proses_deteksi tid cid fi conf).2 = false ∧
      (sR.proses_deteksi tid cid fi conf).1.total_ritase = sR.total_ritase) :=
  ⟨fun sP tid cid fi conf hseen => proses_passing_seen sP tid cid fi conf hseen,
   fun sR tid cid fi conf hseen => proses_ritase_seen sR tid cid fi conf hseen⟩

/-- C3 witness: for a passing counter that has counted dump 1_10 and a
ritase counter that has credited full-truck 1_10, feeding the same
detections again returns false and keeps both totals. -/
theorem claim_C3_witness :
    (let sP := ((PenghitungPassing.init (mkRat 1 2)).proses_deteksi 1
      CLASS_BUCKET_DUMPING 10 (mkRat 9 10)).1
     (sP.proses_deteksi 1 CLASS_BUCKET_DUMPING 10 (mkRat 9 10)).2 = false ∧
     (sP.proses_deteksi 1 CLASS_BUCKET_DUMPING 10
       (mkRat 9 10)).1.total_passing = sP.total_passing) ∧
    (let sR := ((PenghitungRitase.init (mkRat 1 2)).proses_deteksi 1
      CLASS_TRUCK_FULL 10 (mkRat 9 10)).1
     (sR.proses_deteksi 1 CLASS_TRUCK_FULL 10 (mkRat 9 10)).2 = false ∧
     (sR.proses_deteksi 1 CLASS_TRUCK_FULL 10
       (mkRat 9 10)).1.total_ritase = sR.total_ritase) :=
  ⟨⟨(claim_C3.1 _ 1 CLASS_BUCKET_DUMPING 10 (mkRat 9 10) (by decide)).1,
    (claim_C3.1 _ 1 CLASS_BUCKET_DUMPING 10 (mkRat 9 10) (by decide)).2.1⟩,
   ⟨(claim_C3.2 _ 1 CLASS_TRUCK_FULL 10 (mkRat 9 10) (by decide)).1,
    (claim_C3.2 _ 1 CLASS_TRUCK_FULL 10 (mkRat 9 10) (by decide)).2⟩⟩

/-- C7 counterexample: on a fresh counter a detection with class 0 for the
unseen tracker 1 is not a no-op: it lazily inserts an entity record, so the
state after the call differs from the state before it. -/
theorem claim_C7_counterexample :
    ((PenghitungPassing.init (mkRat 1 2)).proses_deteksi 1 0 0 (mkRat 1 1)).1
      ≠ PenghitungPassing.init (mkRat 1 2) := by
  decide

/-- C7 amended: for a tracker id already present in the map, a non-dump
class is an exact no-op returning false, and a dump rejected for a seen
identity or low confidence likewise leaves the state unchanged and returns
false; for an unseen tracker id the only state change on those paths is the
lazy insertion of a zeroed entity record. -/
theorem claim_C7 (s : PenghitungPassing) (tid fi : Nat) (conf : ℚ) :
    (∀ cid, (lookupA s.excavators tid).isSome = true → cid ≠ CLASS_BUCKET_DUMPING →
      s.proses_deteksi tid cid fi conf = (s, false)) ∧
    ((lookupA s.excavators tid).isSome = true →
      dedupKey tid fi ∈ s.counted_dumps ∨ conf < s.min_confidence →
      s.proses_deteksi tid CLASS_BUCKET_DUMPING fi conf = (s, false)) ∧
    (∀ cid, lookupA s.excavators tid = none → cid ≠ CLASS_BUCKET_DUMPING →
      s.proses_deteksi tid cid fi conf
        = ({ s with excavators := s.excavators ++ [(tid, initExcavator)] }, false)) ∧
    (lookupA s.excavators tid = none →
      dedupKey tid fi ∈ s.counted_dumps ∨ conf < s.min_confidence →
      s.proses_deteksi tid CLASS_BUCKET_DUMPING fi conf
        = ({ s with excavators := s.excavators ++ [(tid, initExcavator)] }, false)) := by
  refine ⟨?_, ?_, ?_, ?_⟩
  · intro cid hsome hcid
    rw [proses_passing_nondump s tid cid fi conf hcid,
      pastikanExcavator_of_isSome s tid hsome]
  · intro hsome hrej
    rw [proses_passing_tolak s tid fi conf hrej,
      pastikanExcavator_of_isSome s tid hsome]
  · intro cid hnone hcid
    rw [proses_passing_nondump s tid cid fi conf hcid,
      pastikanExcavator_of_none s tid hnone]
  · intro hnone hrej
    rw [proses_passing_tolak s tid fi conf hrej,
      pastikanExcavator_of_none s tid hnone]

/-- C7 witness: with excavator 1 already tracked, a class-5 detection and a
low-confidence dump are both exact no-ops returning false. -/
theorem claim_C7_witness :
    (let s1 := ((PenghitungPassing.init (mkRat 8 10)).proses_deteksi 1
      CLASS_BUCKET_DUMPING 10 (mkRat 9 10)).1
     s1.proses_deteksi 1 5 11 (mkRat 9 10) = (s1, false) ∧
     s1.proses_deteksi 1 CLASS_BUCKET_DUMPING 11 (mkRat 5 10) = (s1, false)) :=
  ⟨(claim_C7 _ 1 11 (mkRat 9 10)).1 5 (by decide) (by decide),
   (claim_C7 _ 1 11 (mkRat 5 10)).2.1 (by decide) (Or.inr (by decide))⟩

/-- C10: reset_counters leaves the running-cycle flag and the best-in-cycle
record untouched while zeroing the total, so a cycle that already credited a
ritase keeps rejecting every further full-truck detection: each one returns
false, leaves the total unchanged, and keeps the flag set, hence after a
mid-cycle reset the total stays 0 through any run of full-truck detections
until a bucket-dumping signal closes the cycle. -/
theorem claim_C10 :
    (∀ s : PenghitungRitase,
      s.reset_counters.siklus_berjalan_punya_ritase = s.siklus_berjalan_punya_ritase ∧
      s.reset_counters.ritase_terbaik_di_siklus = s.ritase_terbaik_di_siklus ∧
      s.reset_counters.total_ritase = 0) ∧
    (∀ (s : PenghitungRitase) (tid fi : Nat) (conf : ℚ),
      s.siklus_berjalan_punya_ritase = true →
      (s.proses_deteksi tid CLASS_TRUCK_FULL fi conf).2 = false ∧
      (s.proses_deteksi tid CLASS_TRUCK_FULL fi conf).1.total_ritase
        = s.total_ritase ∧
      (s.proses_deteksi tid CLASS_TRUCK_FULL fi
        conf).1.siklus_berjalan_punya_ritase = true) ∧
    (∀ (s : PenghitungRitase) (l : List (Nat × Nat × Nat × ℚ)),
      s.siklus_berjalan_punya_ritase = true →
      (∀ a ∈ l, a.2.1 = CLASS_TRUCK_FULL) →
      (s.reset_counters.prosesSemua l).total_ritase = 0 ∧
      (s.reset_counters.prosesSemua l).siklus_berjalan_punya_ritase = true) := by
  refine ⟨fun s => ⟨rfl, rfl, rfl⟩, ?_, ?_⟩
  · intro s tid fi conf hhas
    exact proses_full_has s tid fi conf hhas
  · intro s l hhas hl
    have hr : s.reset_counters.siklus_berjalan_punya_ritase = true := hhas
    obtain ⟨h1, h2⟩ := prosesSemua_full l s.reset_counters hr hl
    exact ⟨by rw [h1]; rfl, h2⟩

/-- C10 witness: crediting a ritase, then resetting mid-cycle, then feeding
two more full-truck detections keeps the total at 0, each call returning
false with the cycle flag still set. -/
theorem claim_C10_witness :
    (let s1 := ((PenghitungRitase.init (mkRat 1 2)).proses_deteksi 1
      CLASS_TRUCK_FULL 10 (mkRat 8 10)).1
     (s1.proses_deteksi 2 CLASS_TRUCK_FULL 11 (mkRat 9 10)).2 = false ∧
     (s1.reset_counters.prosesSemua
       [(2, CLASS_TRUCK_FULL, 11, mkRat 9 10),
        (3, CLASS_TRUCK_FULL, 12, mkRat 95 100)]).total_ritase = 0 ∧
     (s1.reset_counters.prosesSemua
       [(2, CLASS_TRUCK_FULL, 11, mkRat 9 10),
        (3, CLASS_TRUCK_FULL, 12, mkRat 95 100)]).siklus_berjalan_punya_ritase
       = true) :=
  ⟨(claim_C10.2.1 _ 2 11 (mkRat 9 10) (by decide)).1,
   (claim_C10.2.2 _ [(2, CLASS_TRUCK_FULL, 11, mkRat 9 10),
      (3, CLASS_TRUCK_FULL, 12, mkRat 95 100)] (by decide) (by decide)).1,
   (claim_C10.2.2 _ [(2, CLASS_TRUCK_FULL, 11, mkRat 9 10),
      (3, CLASS_TRUCK_FULL, 12, mkRat 95 100)] (by decide) (by decide)).2⟩

/-- C2: within one cycle, a qualifying dump with no prior candidate counts
(returns true, bumps the entity count and the total by one); a further
qualifying dump with strictly higher confidence only replaces the candidate
(returns false, all counts unchanged); a dump below the threshold is
rejected (returns false, all counts unchanged). -/
theorem claim_C2 (s : PenghitungPassing) (tid fi : Nat) (conf : ℚ) :
    (dedupKey tid fi ∉ s.counted_dumps → ¬ conf < s.min_confidence →
      s.kandidatTerbaik tid = none →
      (s.proses_deteksi tid CLASS_BUCKET_DUMPING fi conf).2 = true ∧
      (s.proses_deteksi tid CLASS_BUCKET_DUMPING fi conf).1.total_passing
        = s.total_passing + 1 ∧
      (s.proses_deteksi tid CLASS_BUCKET_DUMPING fi conf).1.hitungExcavator tid
        = s.hitungExcavator tid + 1) ∧
    (∀ ob : BestDump, dedupKey tid fi ∉ s.counted_dumps →
      ¬ conf < s.min_confidence →
      s.kandidatTerbaik tid = some ob → ob.confidence < conf →
      (s.proses_deteksi tid CLASS_BUCKET_DUMPING fi conf).2 = false ∧
      (s.proses_deteksi tid CLASS_BUCKET_DUMPING fi conf).1.total_passing
        = s.total_passing ∧
      (∀ k, (s.proses_deteksi tid CLASS_BUCKET_DUMPING fi conf).1.hitungExcavator k
        = s.hitungExcavator k) ∧
      (s.proses_deteksi tid CLASS_BUCKET_DUMPING fi conf).1.kandidatTerbaik tid
        = some { dump_id := dedupKey tid fi, frame_index := fi,
                 confidence := conf }) ∧
    (conf < s.min_confidence →
      (s.proses_deteksi tid CLASS_BUCKET_DUMPING fi conf).2 = false ∧
      (s.proses_deteksi tid CLASS_BUCKET_DUMPING fi conf).1.total_passing
        = s.total_passing ∧
      (∀ k, (s.proses_deteksi tid CLASS_BUCKET_DUMPING fi conf).1.hitungExcavator k
        = s.hitungExcavator k)) := by
  refine ⟨?_, ?_, ?_⟩
  · intro hfresh hconf hbest
    rw [proses_passing_pertama s tid fi conf hfresh hconf hbest]
    refine ⟨rfl, rfl, ?_⟩
    unfold PenghitungPassing.hitungExcavator
    dsimp only
    rw [lookupA_updateA_self, pastikanExcavator_lookup]
    rfl
  · intro ob hfresh hconf hbest hup
    rw [proses_passing_ganti s tid fi conf ob hfresh hconf hbest hup]
    refine ⟨rfl, rfl, ?_, ?_⟩
    · intro k
      by_cases hk : k = tid
      · subst hk
        unfold PenghitungPassing.hitungExcavator
        dsimp only
        rw [lookupA_updateA_self, pastikanExcavator_lookup]
        rfl
      · have hp := pastikanExcavator_hitung s tid k
        unfold PenghitungPassing.hitungExcavator at hp ⊢
        dsimp only
        rw [lookupA_updateA_ne _ _ hk]
        exact hp
    · unfold PenghitungPassing.kandidatTerbaik
      dsimp only
      rw [lookupA_updateA_self, pastikanExcavator_lookup]
      rfl
  · intro hlow
    rw [proses_passing_tolak s tid fi conf (Or.inr hlow)]
    exact ⟨rfl, rfl, fun k => pastikanExcavator_hitung s tid k⟩

/-- C2 witness: with threshold 0.8, dumps of excavator 1 at confidences
0.81, 0.95, 0.70 on frames 10, 11, 12 return true, false, false and the
count stays at 1 after the first. -/
theorem claim_C2_witness :
    (let s0 := PenghitungPassing.init (mkRat 8 10)
     let r1 := s0.proses_deteksi 1 CLASS_BUCKET_DUMPING 10 (mkRat 81 100)
     let r2 := r1.1.proses_deteksi 1 CLASS_BUCKET_DUMPING 11 (mkRat 95 100)
     let r3 := r2.1.proses_deteksi 1 CLASS_BUCKET_DUMPING 12 (mkRat 70 100)
     r1.2 = true ∧ r2.2 = false ∧ r3.2 = false ∧
     r1.1.total_passing = 1 ∧ r2.1.total_passing = 1 ∧
     r3.1.total_passing = 1) := by
  refine ⟨?_, ?_, ?_, ?_, ?_, ?_⟩
  · exact ((claim_C2 _ 1 10 (mkRat 81 100)).1 (by decide) (by decide) (by decide)).1
  · exact ((claim_C2 _ 1 11 (mkRat 95 100)).2.1
      { dump_id := dedupKey 1 10, frame_index := 10, confidence := mkRat 81 100 }
      (by decide) (by decide) (by decide) (by decide)).1
  · exact ((claim_C2 _ 1 12 (mkRat 70 100)).2.2 (by decide)).1
  · rw [((claim_C2 _ 1 10 (mkRat 81 100)).1 (by decide) (by decide) (by decide)).2.1]
    decide
  · rw [((claim_C2 _ 1 11 (mkRat 95 100)).2.1
      { dump_id := dedupKey 1 10, frame_index := 10, confidence := mkRat 81 100 }
      (by decide) (by decide) (by decide) (by decide)).2.1]
    decide
  · rw [((claim_C2 _ 1 12 (mkRat 70 100)).2.2 (by decide)).2.1]
    decide

/-- C4: in every reachable state of the passing counter the running total
equals the sum of the per-excavator counts: the invariant holds at
construction and is preserved by proses_deteksi, selesaikan_siklus and
reset_all_counters, and the query method reads exactly the total/per-entity
values. -/
theorem claim_C4 :
    (∀ c : ℚ, InvPassing (PenghitungPassing.init c)) ∧
    (∀ (s : PenghitungPassing) (tid cid fi : Nat) (conf : ℚ), InvPassing s →
      InvPassing (s.proses_deteksi tid cid fi conf).1) ∧
    (∀ (s : PenghitungPassing) (tid : Nat), InvPassing s →
      InvPassing (s.selesaikan_siklus tid)) ∧
    (∀ s : PenghitungPassing, InvPassing s → InvPassing s.reset_all_counters) ∧
    (∀ s : PenghitungPassing, InvPassing s →
      s.dapatkan_passing_count none = s.jumlahPassing ∧
      (∀ k, s.dapatkan_passing_count (some k) = s.hitungExcavator k)) := by
  refine ⟨?_, ?_, ?_, ?_, ?_⟩
  · intro c
    exact ⟨List.nodup_nil, rfl⟩
  · intro s tid cid fi conf hInv
    exact invPassing_proses s tid cid fi conf hInv
  · intro s tid hInv
    exact invPassing_selesaikan s tid hInv
  · intro s hInv
    exact invPassing_reset s hInv
  · intro s hInv
    exact ⟨hInv.2.symm, fun k => rfl⟩

/-- C4 witness: the invariant holds on the fresh counter with threshold 0.8
and is preserved by processing a concrete dump detection. -/
theorem claim_C4_witness :
    InvPassing ((PenghitungPassing.init (mkRat 8 10)).proses_deteksi 1
      CLASS_BUCKET_DUMPING 10 (mkRat 81 100)).1 :=
  claim_C4.2.1 (PenghitungPassing.init (mkRat 8 10)) 1 CLASS_BUCKET_DUMPING 10
    (mkRat 81 100) (by decide)

theorem proses_full_kandidat (s : PenghitungRitase) (tid fi : Nat) (conf : ℚ)
    (hhas : s.siklus_berjalan_punya_ritase = true) :
    s.proses_deteksi tid CLASS_TRUCK_FULL fi conf =
      (({ s.pastikanTruck tid with
          total_deteksi_truk_penuh :=
            (s.pastikanTruck tid).total_deteksi_truk_penuh + 1
        }).langkahKandidat tid fi conf, false) := by
  unfold PenghitungRitase.proses_deteksi
  rw [if_pos rfl]
  dsimp only
  have hh : (s.pastikanTruck tid).siklus_berjalan_punya_ritase = true := hhas
  rw [if_pos hh]

/-- C1: the ritase invariant (unique truck keys, non-negative counts, counts
summing to the running total, and the credited cycle owning a positive
count at the best candidate) holds at construction and is preserved by every
detection; and whenever the running cycle already has a credited ritase and
a strictly better full-truck detection of another truck arrives, the swap
returns false, keeps the running total and the sum of all per-truck counts
unchanged (so the cycle's net contribution stays exactly one), decrements
the former owner (clamped at zero) and increments the new owner by one. -/
theorem claim_C1 :
    (∀ c : ℚ, InvRitase (PenghitungRitase.init c)) ∧
    (∀ (s : PenghitungRitase) (tid cid fi : Nat) (conf : ℚ), InvRitase s →
      InvRitase (s.proses_deteksi tid cid fi conf).1) ∧
    (∀ (s : PenghitungRitase) (tid fi : Nat) (conf : ℚ) (b : BestSiklus),
      InvRitase s →
      s.siklus_berjalan_punya_ritase = true →
      s.ritase_terbaik_di_siklus = some b →
      b.confidence < conf →
      b.tracker_id ≠ tid →
      (s.proses_deteksi tid CLASS_TRUCK_FULL fi conf).2 = false ∧
      (s.proses_deteksi tid CLASS_TRUCK_FULL fi conf).1.total_ritase
        = s.total_ritase ∧
      (s.proses_deteksi tid CLASS_TRUCK_FULL fi conf).1.hitungTruk b.tracker_id
        = max 0 (s.hitungTruk b.tracker_id - 1) ∧
      (s.proses_deteksi tid CLASS_TRUCK_FULL fi conf).1.hitungTruk tid
        = s.hitungTruk tid + 1 ∧
      (s.proses_deteksi tid CLASS_TRUCK_FULL fi conf).1.jumlahRitase
        = s.jumlahRitase ∧
      (s.proses_deteksi tid CLASS_TRUCK_FULL fi
        conf).1.siklus_berjalan_punya_ritase = true) := by
  refine ⟨?_, ?_, ?_⟩
  · intro c
    refine ⟨List.nodup_nil, ?_, rfl, ?_⟩
    · intro p hp
      exact absurd hp (List.not_mem_nil p)
    · intro h
      cases h
  · intro s tid cid fi conf hInv
    exact invRitase_proses s tid cid fi conf hInv
  · intro s tid fi conf b hInv hhas hb hconf hne
    have hmilk := hInv.2.2.2 hhas
    obtain ⟨b', d, hb', hd, hge⟩ := hmilk
    rw [hb] at hb'
    obtain rfl : b = b' := Option.some.inj hb'
    have hInvP : InvRitase (s.pastikanTruck tid) := invRitase_pastikanTruck s tid hInv
    have hInv1 : InvRitase { s.pastikanTruck tid with
        total_deteksi_truk_penuh := (s.pastikanTruck tid).total_deteksi_truk_penuh + 1 } :=
      invRitase_congr (s := s.pastikanTruck tid) rfl rfl rfl rfl hInvP
    have hb1 : ({ s.pastikanTruck tid with
        total_deteksi_truk_penuh := (s.pastikanTruck tid).total_deteksi_truk_penuh + 1
      } : PenghitungRitase).ritase_terbaik_di_siklus = some b := hb
    have hd1 : lookupA ({ s.pastikanTruck tid with
        total_deteksi_truk_penuh := (s.pastikanTruck tid).total_deteksi_truk_penuh + 1
      } : PenghitungRitase).data_truk b.tracker_id = some d :=
      pastikanTruck_lookup_pres s tid b.tracker_id d hd
    have htid1 : lookupA ({ s.pastikanTruck tid with
        total_deteksi_truk_penuh := (s.pastikanTruck tid).total_deteksi_truk_penuh + 1
      } : PenghitungRitase).data_truk tid
        = some ((lookupA s.data_truk tid).getD initTruck) :=
      pastikanTruck_lookup_getD s tid
    have hswap := langkahKandidat_swap _ tid fi conf b d hb1 hconf hd1
    rw [proses_full_kandidat s tid fi conf hhas]
    refine ⟨rfl, ?_, ?_, ?_, ?_, ?_⟩
    · exact (langkahKandidat_sama _ tid fi conf).1
    · rw [hswap]
      unfold PenghitungRitase.hitungTruk
      dsimp only
      rw [lookupA_updateA_ne _ _ hne, lookupA_updateA_self, hd1, hd]
      rfl
    · rw [hswap]
      unfold PenghitungRitase.hitungTruk
      dsimp only
      rw [lookupA_updateA_self, lookupA_updateA_ne _ _ (Ne.symm hne), htid1]
      rfl
    · have hj := (invRitase_langkahKandidat _ tid fi conf hInv1 hhas
        ((lookupA s.data_truk tid).getD initTruck) htid1).2.1
      rw [show ((({ s.pastikanTruck tid with
          total_deteksi_truk_penuh :=
            (s.pastikanTruck tid).total_deteksi_truk_penuh + 1
        } : PenghitungRitase).langkahKandidat tid fi conf, false)).1.jumlahRitase
        = (({ s.pastikanTruck tid with
          total_deteksi_truk_penuh :=
            (s.pastikanTruck tid).total_deteksi_truk_penuh + 1
        } : PenghitungRitase).langkahKandidat tid fi conf).jumlahRitase from rfl, hj]
      exact pastikanTruck_jumlah s tid
    · rw [hswap]
      exact hhas

/-- C1 witness: after truck 1 is credited at confidence 0.8, a better
detection of truck 2 at 0.9 swaps the credit: it returns false, keeps the
total and the sum of counts, moves truck 1 from 1 to 0 and truck 2 from 0
to 1. -/
theorem claim_C1_witness :
    (let s1 := ((PenghitungRitase.init (mkRat 1 2)).proses_deteksi 1
      CLASS_TRUCK_FULL 10 (mkRat 8 10)).1
     (s1.proses_deteksi 2 CLASS_TRUCK_FULL 11 (mkRat 9 10)).2 = false ∧
     (s1.proses_deteksi 2 CLASS_TRUCK_FULL 11 (mkRat 9 10)).1.total_ritase
       = s1.total_ritase ∧
     (s1.proses_deteksi 2 CLASS_TRUCK_FULL 11 (mkRat 9 10)).1.hitungTruk 1
       = max 0 (s1.hitungTruk 1 - 1) ∧
     (s1.proses_deteksi 2 CLASS_TRUCK_FULL 11 (mkRat 9 10)).1.hitungTruk 2
       = s1.hitungTruk 2 + 1 ∧
     (s1.proses_deteksi 2 CLASS_TRUCK_FULL 11 (mkRat 9 10)).1.jumlahRitase
       = s1.jumlahRitase ∧
     (s1.proses_deteksi 2 CLASS_TRUCK_FULL 11
       (mkRat 9 10)).1.siklus_berjalan_punya_ritase = true) :=
  claim_C1.2.2 _ 2 11 (mkRat 9 10)
    { tracker_id := 1, frame_index := 10, confidence := mkRat 8 10,
      cycle_number := 0 }
    (by decide) (by decide) (by decide) (by decide) (by decide)
